import Mathlib

/-!
# MoMA: the alternating rank-one engine of `src/moma.cpp`

A shallow embedding of the `MoMA` class (construction, `deflate`, `solve`,
`evaluate_loss`, `initialize_uv`, `check_convergence`, `reset`, `set_X`).

Conventions of the embedding.

* `double` is an arbitrary linearly ordered field `K` with a floor function
  (exact arithmetic: rounding, infinities and NaN are not modelled).
* `arma::mat` / `arma::vec` are Mathlib matrices and functions on `Fin`; the
  dimensions `n`, `p` are carried in the types.
* `int`/`long` are `Int`. The loop counter of `solve` never exceeds
  `max MAX_ITER 0`, so it stays in the range of `int` whenever `MAX_ITER` does.
* Armadillo (`norm`, `svd`) and `PR_solver::solve` are external to the file and
  are taken as parameters (`Externals`).
* A member function is a function from the object state to a `Res`: the
  messages it hands to `MoMALogger`, the object state when the call ends, and
  the returned value or the raised error.
-/

/-- Column vector `arma::vec` of length `m`. -/
abbrev Vec (K : Type) (m : Nat) := Fin m → K

/-- Dense matrix `arma::mat` with `r` rows and `c` columns. -/
abbrev Mat (K : Type) (r c : Nat) := Matrix (Fin r) (Fin c) K

namespace MoMALogger

/-- Severity of a message handed to `MoMALogger`. -/
inductive Level where
  | debug
  | info
  | warning
  | error
deriving DecidableEq, Repr

/-- One message handed to `MoMALogger`: its level and the literal text the call
starts with (the values streamed after it with `<<` are not recorded). -/
structure Entry where
  level : Level
  text : String
deriving DecidableEq, Repr

end MoMALogger

open MoMALogger

/-- Outcome of a member-function call: messages logged during the call, the
object state when the call ends (normally or by a raised error) and the
returned value or the error. -/
structure Res (σ α : Type) where
  log : List Entry
  st : σ
  ret : Except String α

/-- Modelled from the spec: `MoMALogger::error` (moma_logging is not in src) logs
the message at level error and raises it; the spec calls these conditions fatal
to the call, raised at the point of detection. The object state `st` is the one
reached when the error is raised. -/
def MoMALogger.error {σ α : Type} (log : List Entry) (text : String) (st : σ) : Res σ α :=
  ⟨log ++ [⟨Level.error, text⟩], st, Except.error text⟩

/-- Conversion `double → int` of C++ (truncation toward zero), used where a
`double` is returned from a function whose return type is `int`. A value outside
the range of `int` has no defined conversion in C++; here it is truncated too. -/
def double_to_int {K : Type} [LinearOrderedField K] [FloorRing K] (d : K) : Int :=
  if 0 ≤ d then Int.floor d else Int.ceil d

/-- Modelled from the spec: the class `PR_solver` (moma_solver is not in src).
Its state is what its constructor receives: solver family, smoothness weight
and matrix, penalty strength, opaque penalty configuration `P`, inner tolerance
and inner iteration cap (the vector length is the type index `m`). -/
structure PR_solver (K P : Type) (m : Nat) where
  algorithm : String
  alpha : K
  Omega : Mat K m m
  lambda : K
  prox_arg_list : P
  EPS : K
  MAX_ITER : Int

/-- Modelled from the spec: `PR_solver::reset(new_lambda, new_alpha)` (not in
src) updates the two strengths in place and nothing else. -/
def PR_solver.reset {K P : Type} {m : Nat} (s : PR_solver K P m) (new_lambda new_alpha : K) :
    PR_solver K P m :=
  { s with lambda := new_lambda, alpha := new_alpha }

/-- External collaborators of the engine. `norm_n`, `norm_p` are `arma::norm`
on vectors of length `n` and `p`; `svd X` is the pair `(U.col(0), V.col(0))`
of `arma::svd(U, s, V, X)`; `solve_u s y x` and `solve_v s y x` are
`PR_solver::solve(y, x)` of a solver in state `s` on the u side and the v side. -/
structure Externals (K P : Type) (n p : Nat) where
  norm_n : Vec K n → K
  norm_p : Vec K p → K
  svd : Mat K n p → Vec K n × Vec K p
  solve_u : PR_solver K P n → Vec K n → Vec K n → Vec K n
  solve_v : PR_solver K P p → Vec K p → Vec K p → Vec K p

/-- State of a `MoMA` object: the members its constructor initialises, `u`, `v`
and the two flags. The sizes `n`, `p` are the type indices; the callbacks
`bicsr_u`, `bicsr_v` bound in the constructor are left out. -/
structure MoMA (K P : Type) (n p : Nat) where
  alpha_u : K
  alpha_v : K
  lambda_u : K
  lambda_v : K
  X : Mat K n p
  Omega_u : Mat K n n
  Omega_v : Mat K p p
  MAX_ITER : Int
  EPS : K
  solver_u : PR_solver K P n
  solver_v : PR_solver K P p
  u : Vec K n
  v : Vec K p
  is_initialzied : Bool
  is_solved : Bool

/-- Modelled from the spec: the constructor of `PR_solver` (moma_solver is not
in src) takes the solver family, smoothness weight and matrix, penalty
strength, penalty configuration, inner tolerance and inner cap, and keeps them
(its last argument, the vector length, is the type index). -/
def PR_solver.construct {K P : Type} {m : Nat} (algorithm : String) (alpha : K)
    (Omega : Mat K m m) (lambda : K) (prox_arg_list : P) (EPS : K) (MAX_ITER : Int) :
    PR_solver K P m :=
  ⟨algorithm, alpha, Omega, lambda, prox_arg_list, EPS, MAX_ITER⟩

/-- Steps of the constructor `MoMA::MoMA` that create solve-related state, and
the step that raises the configuration error. -/
inductive CtorStep where
  | construct_solver_u
  | construct_solver_v
  | raise_error
  | initialize_uv
deriving DecidableEq, Repr

/-- Outcome of the constructor: the steps it executed, in order, the messages
logged, and the constructed object or the raised error. -/
structure CtorRes (K P : Type) (n p : Nat) where
  steps : List CtorStep
  log : List Entry
  ret : Except String (MoMA K P n p)

namespace MoMA

variable {K P : Type} [LinearOrderedField K] {n p : Nat}

/-- `MoMA::initialize_uv`: set `v`, `u` to the leading singular vectors of the
current `X` and mark the object initialised; returns 0. -/
def initialize_uv (E : Externals K P n p) (m : MoMA K P n p) : Res (MoMA K P n p) Int :=
  let m1 := { m with v := (E.svd m.X).2 }
  let m2 := { m1 with u := (E.svd m.X).1 }
  let m3 := { m2 with is_initialzied := true }
  ⟨[], m3, Except.ok 0⟩

/-- Constructor `MoMA::MoMA`. The member initialiser list runs first (it copies
the arguments and constructs `solver_u`, `solver_v`); then the body checks the
two tolerances, logs, runs `initialize_uv` and sets the two flags. Before
`initialize_uv` the vectors `u`, `v` are default-constructed (written `0` here)
and the flags are not yet assigned (written `false`). -/
def ctor (E : Externals K P n p) (i_X : Mat K n p) (i_lambda_u i_lambda_v : K)
    (i_prox_arg_list_u i_prox_arg_list_v : P) (i_alpha_u i_alpha_v : K)
    (i_Omega_u : Mat K n n) (i_Omega_v : Mat K p p) (i_EPS : K) (i_MAX_ITER : Int)
    (i_EPS_inner : K) (i_MAX_ITER_inner : Int) (i_solver : String) : CtorRes K P n p :=
  let m0 : MoMA K P n p :=
    { alpha_u := i_alpha_u
      alpha_v := i_alpha_v
      lambda_u := i_lambda_u
      lambda_v := i_lambda_v
      X := i_X
      Omega_u := i_Omega_u
      Omega_v := i_Omega_v
      MAX_ITER := i_MAX_ITER
      EPS := i_EPS
      solver_u := PR_solver.construct i_solver i_alpha_u i_Omega_u i_lambda_u
        i_prox_arg_list_u i_EPS_inner i_MAX_ITER_inner
      solver_v := PR_solver.construct i_solver i_alpha_v i_Omega_v i_lambda_v
        i_prox_arg_list_v i_EPS_inner i_MAX_ITER_inner
      u := 0
      v := 0
      is_initialzied := false
      is_solved := false }
  let steps0 := [CtorStep.construct_solver_u, CtorStep.construct_solver_v]
  if i_EPS ≥ 1 ∨ i_EPS_inner ≥ 1 then
    ⟨steps0 ++ [CtorStep.raise_error], [⟨Level.error, "EPS or EPS_inner too large."⟩],
      Except.error "EPS or EPS_inner too large."⟩
  else
    let log0 : List Entry := [⟨Level.info, "Initializing MoMA object:"⟩]
    let r := initialize_uv E m0
    let m1 := { r.st with is_initialzied := true }
    let m2 := { m1 with is_solved := false }
    ⟨steps0 ++ [CtorStep.initialize_uv], log0 ++ r.log, Except.ok m2⟩

/-- `MoMA::deflate`: log, reject `d <= 0`, subtract `d * u * v.t()` from `X`,
re-initialise `u`, `v`, and return `d` through the return type `int`. -/
def deflate [FloorRing K] (E : Externals K P n p) (d : K) (m : MoMA K P n p) :
    Res (MoMA K P n p) Int :=
  let log0 : List Entry := [⟨Level.debug, "Deflating:\n"⟩]
  if d ≤ 0 then
    MoMALogger.error log0 "Cannot deflate by non-positive factor." m
  else
    let m1 := { m with X := m.X - Matrix.vecMulVec (d • m.u) m.v }
    let r := initialize_uv E m1
    ⟨log0 ++ r.log, r.st, Except.ok (double_to_int d)⟩

/-- Two object states agree on every member other than `u` and `v`. -/
def same_but_uv (a b : MoMA K P n p) : Prop :=
  a.alpha_u = b.alpha_u ∧ a.alpha_v = b.alpha_v ∧ a.lambda_u = b.lambda_u ∧
  a.lambda_v = b.lambda_v ∧ a.X = b.X ∧ a.Omega_u = b.Omega_u ∧ a.Omega_v = b.Omega_v ∧
  a.MAX_ITER = b.MAX_ITER ∧ a.EPS = b.EPS ∧ a.solver_u = b.solver_u ∧
  a.solver_v = b.solver_v ∧ a.is_initialzied = b.is_initialzied ∧ a.is_solved = b.is_solved

/-- The message `check_convergence` hands to `MoMALogger::warning`. -/
def no_convergence_warning : Entry := ⟨Level.warning, "No convergence in MoMA!"⟩

/-- The message the loop of `solve` hands to `MoMALogger::debug` on each pass. -/
def loop_debug_message : Entry := ⟨Level.debug, "Real-time PG loop info:  (iter, tol) = ("⟩

/-- Locals and object state of `MoMA::solve` at a point of its loop. -/
structure LoopState (K P : Type) (n p : Nat) where
  st : MoMA K P n p
  tol : K
  iter : Int
  log : List Entry

/-- One pass of the body of the `while` loop of `MoMA::solve`. -/
def solve_body (E : Externals K P n p) (s : LoopState K P n p) : LoopState K P n p :=
  let iter := s.iter + 1
  let oldu := s.st.u
  let oldv := s.st.v
  let m1 := { s.st with u := E.solve_u s.st.solver_u (Matrix.mulVec s.st.X s.st.v) s.st.u }
  let m2 := { m1 with v := E.solve_v m1.solver_v (Matrix.mulVec (Matrix.transpose m1.X) m1.u) m1.v }
  let scale_u := if E.norm_n oldu = 0 then 1 else E.norm_n oldu
  let scale_v := if E.norm_p oldv = 0 then 1 else E.norm_p oldv
  let tol := E.norm_n (oldu - m2.u) / scale_u + E.norm_p (oldv - m2.v) / scale_v
  ⟨m2, tol, iter, s.log ++ [loop_debug_message]⟩

/-- The loop `while (tol > EPS && iter < MAX_ITER) { ... }` of `MoMA::solve`. -/
def solve_loop (E : Externals K P n p) (s : LoopState K P n p) : LoopState K P n p :=
  if s.tol > s.st.EPS ∧ s.iter < s.st.MAX_ITER then
    solve_loop E (solve_body E s)
  else
    s
termination_by (s.st.MAX_ITER - s.iter).toNat
decreasing_by
  show ((solve_body E s).st.MAX_ITER - (solve_body E s).iter).toNat <
    (s.st.MAX_ITER - s.iter).toNat
  simp only [solve_body]
  omega

/-- `MoMA::check_convergence`: warn when `iter >= MAX_ITER || tol > EPS`;
returns 0 and changes nothing. -/
def check_convergence (m : MoMA K P n p) (iter : Int) (tol : K) : Res (MoMA K P n p) Int :=
  if iter ≥ m.MAX_ITER ∨ tol > m.EPS then
    ⟨[no_convergence_warning], m, Except.ok 0⟩
  else
    ⟨[], m, Except.ok 0⟩

/-- Locals and state of `MoMA::solve` when its loop is left (`tol = 1`,
`iter = 0` on entry). -/
def solve_exit (E : Externals K P n p) (m : MoMA K P n p) : LoopState K P n p :=
  solve_loop E ⟨m, 1, 0, []⟩

/-- `MoMA::solve`: run the loop, log the iteration count, check convergence
and set `is_solved`. -/
def solve (E : Externals K P n p) (m : MoMA K P n p) : Res (MoMA K P n p) Unit :=
  let s := solve_exit E m
  let log1 := s.log ++ [⟨Level.info, "Finish PG loop. Total iter = "⟩]
  let c := check_convergence s.st s.iter s.tol
  ⟨log1 ++ c.log, { c.st with is_solved := true }, Except.ok ()⟩

/-! ### The invocations of the per-side solvers

The loop of `MoMA::solve` once more, with every call `solver_u.solve(...)` and
`solver_v.solve(...)` recorded in the order in which it is made. -/

/-- `MoMA::evaluate_loss`: requires `is_solved`, checks the two ellipse
constraints and returns the constant 1. -/
def evaluate_loss (m : MoMA K P n p) : Res (MoMA K P n p) K :=
  if !m.is_solved then
    MoMALogger.error [] "Please call MoMA::solve first before MoMA::evaluate_loss." m
  else
    let u_ellipsi_constaint :=
      Matrix.dotProduct m.u m.u + Matrix.dotProduct (Matrix.vecMul (m.alpha_u • m.u) m.Omega_u) m.u
    let v_ellipsi_constaint :=
      Matrix.dotProduct m.v m.v + Matrix.dotProduct (Matrix.vecMul (m.alpha_v • m.v) m.Omega_v) m.v
    if (u_ellipsi_constaint ≠ 0 ∧ u_ellipsi_constaint ≠ 1) ∨
        (v_ellipsi_constaint ≠ 0 ∧ v_ellipsi_constaint ≠ 1) then
      MoMALogger.error [] "Ellipse constraint is not met." m
    else
      ⟨[], m, Except.ok 1⟩

/-- `MoMA::reset`: forward the new strengths to both solvers; when one of the
four differs from the engine's copy by more than `EPS`, clear `is_solved` and
update the engine's copies; returns 0. -/
def reset (m : MoMA K P n p) (newlambda_u newlambda_v newalpha_u newalpha_v : K) :
    Res (MoMA K P n p) Int :=
  let m1 := { m with solver_u := m.solver_u.reset newlambda_u newalpha_u }
  let m2 := { m1 with solver_v := m1.solver_v.reset newlambda_v newalpha_v }
  if |m2.alpha_u - newalpha_u| > m2.EPS ∨ |m2.alpha_v - newalpha_v| > m2.EPS ∨
      |m2.lambda_v - newlambda_v| > m2.EPS ∨ |m2.lambda_u - newlambda_u| > m2.EPS then
    ⟨[], { m2 with is_solved := false, alpha_u := newalpha_u, alpha_v := newalpha_v,
                   lambda_u := newlambda_u, lambda_v := newlambda_v }, Except.ok 0⟩
  else
    ⟨[], m2, Except.ok 0⟩

/-- `MoMA::set_X`: replace `X` and re-initialise `u`, `v`; returns 0. -/
def set_X (E : Externals K P n p) (new_X : Mat K n p) (m : MoMA K P n p) : Res (MoMA K P n p) Int :=
  let m1 := { m with X := new_X }
  let r := initialize_uv E m1
  ⟨r.log, r.st, Except.ok 0⟩

end MoMA

/-! ## The reference loop of the specification

Section 4.2 of the specification gives `solve()` as a repeat-until loop over
per-side update functions. It is written here from the specification's words,
to be compared with `MoMA.solve_loop`, which is written from the source. -/

namespace Spec

/-- The variables of the specification's loop: the factors, `tol` and `iter`. -/
structure Iterate (K : Type) (n p : Nat) where
  u : Vec K n
  v : Vec K p
  tol : K
  iter : Int

variable {K : Type} [LinearOrderedField K] {n p : Nat}

/-- One pass of the specification's loop: `iter += 1`; `u = update_u(X v, u)`;
`v = update_v(Xᵗ u, v)` with the just-updated `u`; `scale = old norm if nonzero
else 1`; `tol = ||old_u - u|| / scale_u + ||old_v - v|| / scale_v`. -/
def pass (norm_n : Vec K n → K) (norm_p : Vec K p → K) (X : Mat K n p)
    (update_u : Vec K n → Vec K n → Vec K n) (update_v : Vec K p → Vec K p → Vec K p)
    (s : Iterate K n p) : Iterate K n p :=
  let iter := s.iter + 1
  let old_u := s.u
  let old_v := s.v
  let u := update_u (Matrix.mulVec X s.v) s.u
  let v := update_v (Matrix.mulVec (Matrix.transpose X) u) s.v
  let scale_u := if norm_n old_u ≠ 0 then norm_n old_u else 1
  let scale_v := if norm_p old_v ≠ 0 then norm_p old_v else 1
  let tol := norm_n (old_u - u) / scale_u + norm_p (old_v - v) / scale_v
  ⟨u, v, tol, iter⟩

/-- The specification's `repeat ... until tol ≤ EPS or iter ≥ MAX_ITER`: the
pass runs first and the test follows it. -/
def repeat_until (norm_n : Vec K n → K) (norm_p : Vec K p → K) (X : Mat K n p)
    (update_u : Vec K n → Vec K n → Vec K n) (update_v : Vec K p → Vec K p → Vec K p)
    (EPS : K) (MAX_ITER : Int) (s : Iterate K n p) : Iterate K n p :=
  if (pass norm_n norm_p X update_u update_v s).tol ≤ EPS ∨
      (pass norm_n norm_p X update_u update_v s).iter ≥ MAX_ITER then
    pass norm_n norm_p X update_u update_v s
  else
    repeat_until norm_n norm_p X update_u update_v EPS MAX_ITER
      (pass norm_n norm_p X update_u update_v s)
termination_by (MAX_ITER - s.iter).toNat
decreasing_by
  rename_i h
  have h2 : ¬ (pass norm_n norm_p X update_u update_v s).iter ≥ MAX_ITER := fun c => h (Or.inr c)
  show (MAX_ITER - (pass norm_n norm_p X update_u update_v s).iter).toNat <
    (MAX_ITER - s.iter).toNat
  simp only [pass] at h2 ⊢
  omega

/-- The specification's `solve()`: the loop entered with `tol = 1`, `iter = 0`. -/
def solve (norm_n : Vec K n → K) (norm_p : Vec K p → K) (X : Mat K n p)
    (update_u : Vec K n → Vec K n → Vec K n) (update_v : Vec K p → Vec K p → Vec K p)
    (EPS : K) (MAX_ITER : Int) (u : Vec K n) (v : Vec K p) : Iterate K n p :=
  repeat_until norm_n norm_p X update_u update_v EPS MAX_ITER ⟨u, v, 1, 0⟩

end Spec

/-! ## Singular values

`arma::svd` also returns the singular values. The two the claims speak of are
characterised here without square roots, by squared Euclidean norms
(`y ⬝ᵥ y` is `‖y‖²`), so that they make sense over any ordered field. -/

/-- The number `σ` is the leading singular value of `A`: `σ >= 0`,
`‖A y‖² <= σ² ‖y‖²` for every `y`, and equality holds at some `y ≠ 0`
(`σ` is the largest value of `‖A y‖ / ‖y‖`). -/
def IsLeadingSingularValue {K : Type} [LinearOrderedField K] {n p : Nat}
    (A : Mat K n p) (σ : K) : Prop :=
  0 ≤ σ ∧
  (∀ y : Vec K p,
    Matrix.dotProduct (Matrix.mulVec A y) (Matrix.mulVec A y) ≤ σ ^ 2 * Matrix.dotProduct y y) ∧
  (∃ y : Vec K p, y ≠ 0 ∧
    Matrix.dotProduct (Matrix.mulVec A y) (Matrix.mulVec A y) = σ ^ 2 * Matrix.dotProduct y y)

/-- The number `σ` is the second singular value of `A`, by the min-max
characterisation: `σ >= 0`; for some `w`, `‖A y‖² <= σ² ‖y‖²` for every `y`
orthogonal to `w`; and for every `w` some `y ≠ 0` orthogonal to `w` has
`‖A y‖² >= σ² ‖y‖²` (`σ` is the least, over `w`, of the largest value of
`‖A y‖ / ‖y‖` on the orthogonal complement of `w`). No number qualifies when
`A` has a single column. -/
def IsSecondSingularValue {K : Type} [LinearOrderedField K] {n p : Nat}
    (A : Mat K n p) (σ : K) : Prop :=
  0 ≤ σ ∧
  (∃ w : Vec K p, ∀ y : Vec K p, Matrix.dotProduct y w = 0 →
    Matrix.dotProduct (Matrix.mulVec A y) (Matrix.mulVec A y) ≤ σ ^ 2 * Matrix.dotProduct y y) ∧
  (∀ w : Vec K p, ∃ y : Vec K p, y ≠ 0 ∧ Matrix.dotProduct y w = 0 ∧
    σ ^ 2 * Matrix.dotProduct y y ≤ Matrix.dotProduct (Matrix.mulVec A y) (Matrix.mulVec A y))

/-! ## Assumptions on the external collaborators -/

/-- The properties of `arma::norm` (the Euclidean norm, in exact arithmetic)
that the theorems about the discrepancy use: it is nonnegative, it vanishes
only at the zero vector, and it is absolutely homogeneous. -/
structure Externals.NormLaws {K P : Type} [LinearOrderedField K] {n p : Nat}
    (E : Externals K P n p) : Prop where
  norm_n_nonneg : ∀ x, 0 ≤ E.norm_n x
  norm_n_eq_zero : ∀ x, E.norm_n x = 0 ↔ x = 0
  norm_n_smul : ∀ (c : K) (x : Vec K n), E.norm_n (c • x) = |c| * E.norm_n x
  norm_p_nonneg : ∀ x, 0 ≤ E.norm_p x
  norm_p_eq_zero : ∀ x, E.norm_p x = 0 ↔ x = 0
  norm_p_smul : ∀ (c : K) (x : Vec K p), E.norm_p (c • x) = |c| * E.norm_p x

/-- The unpenalized per-side solver: when its two strengths are zero the
proximal map is the identity and the update is the target rescaled to unit
norm, whatever the warm start. -/
def Externals.Unpenalized {K P : Type} [LinearOrderedField K] {n p : Nat}
    (E : Externals K P n p) : Prop :=
  (∀ (s : PR_solver K P n) (y x : Vec K n), s.lambda = 0 → s.alpha = 0 →
      E.solve_u s y x = (E.norm_n y)⁻¹ • y) ∧
  (∀ (s : PR_solver K P p) (y x : Vec K p), s.lambda = 0 → s.alpha = 0 →
      E.solve_v s y x = (E.norm_p y)⁻¹ • y)

/-! ## Concrete instances used to run the definitions -/

namespace Example

/-- Collaborators for 1×1 problems over `ℚ`: the norm of a vector of length 1
is the absolute value of its entry, the leading singular vectors are `(1, 1)`,
and both per-side updates return their target unchanged. -/
def E1 : Externals ℚ Unit 1 1 where
  norm_n := fun x => |x 0|
  norm_p := fun x => |x 0|
  svd := fun _ => (fun _ => 1, fun _ => 1)
  solve_u := fun _ y _ => y
  solve_v := fun _ y _ => y

/-- Collaborators for 1×1 problems over `ℚ` whose per-side updates return the
warm start unchanged, so every pass of the loop ends with discrepancy 0. -/
def Efix : Externals ℚ Unit 1 1 where
  norm_n := fun x => |x 0|
  norm_p := fun x => |x 0|
  svd := fun _ => (fun _ => 1, fun _ => 1)
  solve_u := fun _ _ x => x
  solve_v := fun _ _ x => x

/-- Collaborators for 1×1 problems over `ℚ` with the unpenalized per-side
solver: the update is the target divided by its norm. -/
def Eunit : Externals ℚ Unit 1 1 where
  norm_n := fun x => |x 0|
  norm_p := fun x => |x 0|
  svd := fun _ => (fun _ => 1, fun _ => 1)
  solve_u := fun _ y _ => (|y 0|)⁻¹ • y
  solve_v := fun _ y _ => (|y 0|)⁻¹ • y

/-- A per-side solver state with zero strengths. -/
def s0 : PR_solver ℚ Unit 1 :=
  PR_solver.construct "ISTA" 0 0 0 () (1 / 100) 10

/-- An engine state on the 1×1 matrix `(x)` with factors `(a)`, `(b)`, outer
tolerance `eps`, outer cap `cap` and the given solved flag. -/
def mk1 (x a b eps : ℚ) (cap : Int) (solved : Bool) : MoMA ℚ Unit 1 1 where
  alpha_u := 0
  alpha_v := 0
  lambda_u := 0
  lambda_v := 0
  X := fun _ _ => x
  Omega_u := 0
  Omega_v := 0
  MAX_ITER := cap
  EPS := eps
  solver_u := s0
  solver_v := s0
  u := fun _ => a
  v := fun _ => b
  is_initialzied := true
  is_solved := solved

/-- A per-side solver state for vectors of length 2, with zero strengths. -/
def s2 : PR_solver ℚ Unit 2 :=
  PR_solver.construct "ISTA" 0 0 0 () (1 / 100) 10

/-- Collaborators for 2×2 problems over `ℚ`, meant for diagonal matrices and
coordinate vectors: the norm is the sum of the absolute values of the entries
(the Euclidean norm of a vector with a single nonzero entry), the SVD returns
the first coordinate vectors, and both per-side updates return their target. -/
def E2 : Externals ℚ Unit 2 2 where
  norm_n := fun x => |x 0| + |x 1|
  norm_p := fun x => |x 0| + |x 1|
  svd := fun _ => (![1, 0], ![1, 0])
  solve_u := fun _ y _ => y
  solve_v := fun _ y _ => y

/-- An engine state on the diagonal 2×2 matrix `diag(x, y)` with factors `u`,
`v`, `EPS = 1/10`, `MAX_ITER = 5`, solved. -/
def mk2 (x y : ℚ) (u v : Vec ℚ 2) : MoMA ℚ Unit 2 2 where
  alpha_u := 0
  alpha_v := 0
  lambda_u := 0
  lambda_v := 0
  X := Matrix.diagonal ![x, y]
  Omega_u := 0
  Omega_v := 0
  MAX_ITER := 5
  EPS := 1 / 10
  solver_u := s2
  solver_v := s2
  u := u
  v := v
  is_initialzied := true
  is_solved := true

end Example

/-! ## Theorems -/

namespace MoMA

variable {K P : Type} [LinearOrderedField K] {n p : Nat}

/-! ### The loop of `solve` -/

theorem solve_loop_step (E : Externals K P n p) (s : LoopState K P n p)
    (h : s.tol > s.st.EPS ∧ s.iter < s.st.MAX_ITER) :
    solve_loop E s = solve_loop E (solve_body E s) := by
  rw [solve_loop, if_pos h]

theorem solve_loop_stop (E : Externals K P n p) (s : LoopState K P n p)
    (h : ¬ (s.tol > s.st.EPS ∧ s.iter < s.st.MAX_ITER)) :
    solve_loop E s = s := by
  rw [solve_loop, if_neg h]

/-- The loop changes no member of the object other than `u` and `v`. -/
theorem solve_loop_frame (E : Externals K P n p) (s : LoopState K P n p) :
    same_but_uv (solve_loop E s).st s.st := by
  induction s using solve_loop.induct E with
  | case1 x h ih =>
    rw [solve_loop_step E x h]
    exact ih
  | case2 x h =>
    rw [solve_loop_stop E x h]
    simp [same_but_uv]

theorem solve_loop_EPS (E : Externals K P n p) (s : LoopState K P n p) :
    (solve_loop E s).st.EPS = s.st.EPS :=
  (solve_loop_frame E s).2.2.2.2.2.2.2.2.1

theorem solve_loop_MAX_ITER (E : Externals K P n p) (s : LoopState K P n p) :
    (solve_loop E s).st.MAX_ITER = s.st.MAX_ITER :=
  (solve_loop_frame E s).2.2.2.2.2.2.2.1

/-- The loop is left with its condition false. -/
theorem solve_loop_exit (E : Externals K P n p) (s : LoopState K P n p) :
    ¬ ((solve_loop E s).tol > s.st.EPS ∧ (solve_loop E s).iter < s.st.MAX_ITER) := by
  induction s using solve_loop.induct E with
  | case1 x h ih =>
    rw [solve_loop_step E x h]
    exact ih
  | case2 x h =>
    rw [solve_loop_stop E x h]
    exact h

/-- The counter only grows, and it stays at its initial value or below the cap. -/
theorem solve_loop_iter_bounds (E : Externals K P n p) (s : LoopState K P n p) :
    s.iter ≤ (solve_loop E s).iter ∧
    ((solve_loop E s).iter = s.iter ∨ (solve_loop E s).iter ≤ s.st.MAX_ITER) := by
  induction s using solve_loop.induct E with
  | case1 x h ih =>
    rw [solve_loop_step E x h]
    have h2 := h.2
    have e1 : (solve_body E x).iter = x.iter + 1 := rfl
    have e2 : (solve_body E x).st.MAX_ITER = x.st.MAX_ITER := rfl
    rw [e1, e2] at ih
    omega
  | case2 x h =>
    rw [solve_loop_stop E x h]
    omega

/-- The loop logs one debug message per pass and nothing else. -/
theorem solve_loop_log (E : Externals K P n p) (s : LoopState K P n p) :
    (solve_loop E s).log =
      s.log ++ List.replicate ((solve_loop E s).iter - s.iter).toNat loop_debug_message := by
  induction s using solve_loop.induct E with
  | case1 x h ih =>
    rw [solve_loop_step E x h]
    have hb := (solve_loop_iter_bounds E (solve_body E x)).1
    have e1 : (solve_body E x).iter = x.iter + 1 := rfl
    have e2 : (solve_body E x).log = x.log ++ [loop_debug_message] := rfl
    rw [e1] at hb
    have e : ((solve_loop E (solve_body E x)).iter - x.iter).toNat =
        ((solve_loop E (solve_body E x)).iter - (x.iter + 1)).toNat + 1 := by
      omega
    rw [ih, e1, e2, e, List.replicate_succ, List.append_assoc]
    rfl
  | case2 x h =>
    rw [solve_loop_stop E x h]
    simp

/-- C1: for every state and every `d <= 0`, `deflate d` raises the error
"Cannot deflate by non-positive factor." and the object is left exactly as it
was; in particular `X`, `u` and `v` are those before the call. -/
theorem deflate_nonpos_fails [FloorRing K] (E : Externals K P n p) (d : K) (m : MoMA K P n p)
    (hd : d ≤ 0) :
    (deflate E d m).ret = Except.error "Cannot deflate by non-positive factor." ∧
    (deflate E d m).st = m ∧
    (deflate E d m).st.X = m.X ∧ (deflate E d m).st.u = m.u ∧ (deflate E d m).st.v = m.v := by
  simp [deflate, MoMALogger.error, hd]

/-- Witness of C1: deflating the state `X = (3)`, `u = (1)`, `v = (1)` by `-2`. -/
theorem deflate_nonpos_fails_witness :
    ((-2 : ℚ) ≤ 0) ∧
    (deflate Example.E1 (-2) (Example.mk1 3 1 1 (1 / 10) 5 true)).ret =
      Except.error "Cannot deflate by non-positive factor." ∧
    (deflate Example.E1 (-2) (Example.mk1 3 1 1 (1 / 10) 5 true)).st.X =
      (Example.mk1 3 1 1 (1 / 10) 5 true).X :=
  ⟨by norm_num,
   (deflate_nonpos_fails Example.E1 (-2) (Example.mk1 3 1 1 (1 / 10) 5 true) (by norm_num)).1,
   (deflate_nonpos_fails Example.E1 (-2) (Example.mk1 3 1 1 (1 / 10) 5 true) (by norm_num)).2.2.1⟩

/-- The log of `solve`: the loop's messages, the info message, then what
`check_convergence` logs. -/
theorem solve_log (E : Externals K P n p) (m : MoMA K P n p) :
    (solve E m).log =
      List.replicate (solve_exit E m).iter.toNat loop_debug_message ++
        [⟨Level.info, "Finish PG loop. Total iter = "⟩] ++
        (check_convergence (solve_exit E m).st (solve_exit E m).iter (solve_exit E m).tol).log := by
  have h := solve_loop_log E ⟨m, 1, 0, []⟩
  simp only [List.nil_append, sub_zero] at h
  simp only [solve, solve_exit, h]

/-- The warning is in the log of `solve` exactly when the test of
`check_convergence` holds for the locals the loop was left with. -/
theorem solve_warning_iff_test (E : Externals K P n p) (m : MoMA K P n p) :
    no_convergence_warning ∈ (solve E m).log ↔
      ((solve_exit E m).iter ≥ m.MAX_ITER ∨ (solve_exit E m).tol > m.EPS) := by
  have hM : (solve_exit E m).st.MAX_ITER = m.MAX_ITER := solve_loop_MAX_ITER E ⟨m, 1, 0, []⟩
  have hE : (solve_exit E m).st.EPS = m.EPS := solve_loop_EPS E ⟨m, 1, 0, []⟩
  rw [solve_log, check_convergence, hM, hE]
  by_cases c : (solve_exit E m).iter ≥ m.MAX_ITER ∨ (solve_exit E m).tol > m.EPS
  · simp [c]
  · simp [c, no_convergence_warning, loop_debug_message, List.mem_replicate]

/-- The warning is in the log of `solve` exactly when the loop was left with the
counter at or above the cap. -/
theorem solve_warning_iff_cap (E : Externals K P n p) (m : MoMA K P n p) :
    no_convergence_warning ∈ (solve E m).log ↔ (solve_exit E m).iter ≥ m.MAX_ITER := by
  rw [solve_warning_iff_test]
  have hx := solve_loop_exit E ⟨m, 1, 0, []⟩
  constructor
  · rintro (h | h)
    · exact h
    · by_contra hc
      exact hx ⟨h, not_le.mp hc⟩
  · exact Or.inl

/-- When the loop of `solve` is left the counter is between 0 and `max MAX_ITER 0`. -/
theorem solve_exit_iter_bounds (E : Externals K P n p) (m : MoMA K P n p) :
    0 ≤ (solve_exit E m).iter ∧ (solve_exit E m).iter ≤ max m.MAX_ITER 0 := by
  have h := solve_loop_iter_bounds E ⟨m, 1, 0, []⟩
  refine ⟨h.1, ?_⟩
  rcases h.2 with h2 | h2
  · exact le_max_of_le_right (le_of_eq h2)
  · exact le_max_of_le_left h2

/-- C2 as stated fails: with `MAX_ITER = -1` and `EPS = 1/2` the loop is left
with `tol = 1 > EPS` and `iter = 0`, which is not `MAX_ITER` (the warning is
emitted all the same). -/
theorem solve_tol_or_cap_counterexample :
    (solve_exit Example.E1 (Example.mk1 3 1 1 (1 / 2) (-1) false)).tol = 1 ∧
    (solve_exit Example.E1 (Example.mk1 3 1 1 (1 / 2) (-1) false)).iter = 0 ∧
    no_convergence_warning ∈ (solve Example.E1 (Example.mk1 3 1 1 (1 / 2) (-1) false)).log ∧
    ¬ ((solve_exit Example.E1 (Example.mk1 3 1 1 (1 / 2) (-1) false)).tol ≤
          (Example.mk1 3 1 1 (1 / 2) (-1) false).EPS ∨
        ((solve_exit Example.E1 (Example.mk1 3 1 1 (1 / 2) (-1) false)).iter =
            (Example.mk1 3 1 1 (1 / 2) (-1) false).MAX_ITER ∧
          no_convergence_warning ∈
            (solve Example.E1 (Example.mk1 3 1 1 (1 / 2) (-1) false)).log)) := by
  have e : solve_exit Example.E1 (Example.mk1 3 1 1 (1 / 2) (-1) false) =
      ⟨Example.mk1 3 1 1 (1 / 2) (-1) false, 1, 0, []⟩ :=
    solve_loop_stop _ _ (by simp [Example.mk1])
  have w := (solve_warning_iff_cap Example.E1 (Example.mk1 3 1 1 (1 / 2) (-1) false)).mpr
    (by rw [e]; simp [Example.mk1])
  refine ⟨by rw [e], by rw [e], w, ?_⟩
  rw [e]
  norm_num [Example.mk1]

/-- C2 (amended): when `solve` returns, either the discrepancy `tol` the loop
was left with is `<= EPS`, or the counter is at the cap, `iter = max MAX_ITER 0`
(so `iter = MAX_ITER` whenever `MAX_ITER >= 0`), and `check_convergence` emitted
the non-convergence warning. -/
theorem solve_tol_or_cap (E : Externals K P n p) (m : MoMA K P n p) :
    (solve_exit E m).tol ≤ m.EPS ∨
    ((solve_exit E m).iter = max m.MAX_ITER 0 ∧ no_convergence_warning ∈ (solve E m).log) := by
  by_cases ht : (solve_exit E m).tol ≤ m.EPS
  · exact Or.inl ht
  · right
    have hx := solve_loop_exit E ⟨m, 1, 0, []⟩
    have hb := solve_exit_iter_bounds E m
    have hcap : (solve_exit E m).iter ≥ m.MAX_ITER := by
      by_contra hc
      exact hx ⟨not_le.mp ht, not_le.mp hc⟩
    refine ⟨le_antisymm hb.2 (max_le hcap hb.1), ?_⟩
    exact (solve_warning_iff_cap E m).mpr hcap

/-! ### `reset` -/

/-- C3: if each of the four new values differs from the engine's current value
by at most `EPS` in absolute value, `reset` leaves `is_solved` unchanged; if at
least one differs by more than `EPS`, `reset` sets `is_solved` to false; in both
cases `X`, `u` and `v` after `reset` are those before it. -/
theorem reset_is_solved_and_frame (m : MoMA K P n p)
    (new_lambda_u new_lambda_v new_alpha_u new_alpha_v : K) :
    ((|new_lambda_u - m.lambda_u| ≤ m.EPS ∧ |new_lambda_v - m.lambda_v| ≤ m.EPS ∧
        |new_alpha_u - m.alpha_u| ≤ m.EPS ∧ |new_alpha_v - m.alpha_v| ≤ m.EPS) →
      (reset m new_lambda_u new_lambda_v new_alpha_u new_alpha_v).st.is_solved = m.is_solved) ∧
    ((|new_lambda_u - m.lambda_u| > m.EPS ∨ |new_lambda_v - m.lambda_v| > m.EPS ∨
        |new_alpha_u - m.alpha_u| > m.EPS ∨ |new_alpha_v - m.alpha_v| > m.EPS) →
      (reset m new_lambda_u new_lambda_v new_alpha_u new_alpha_v).st.is_solved = false) ∧
    (reset m new_lambda_u new_lambda_v new_alpha_u new_alpha_v).st.X = m.X ∧
    (reset m new_lambda_u new_lambda_v new_alpha_u new_alpha_v).st.u = m.u ∧
    (reset m new_lambda_u new_lambda_v new_alpha_u new_alpha_v).st.v = m.v := by
  rw [abs_sub_comm new_lambda_u, abs_sub_comm new_lambda_v, abs_sub_comm new_alpha_u,
    abs_sub_comm new_alpha_v]
  unfold reset
  simp only []
  split
  · rename_i h
    refine ⟨?_, fun _ => rfl, rfl, rfl, rfl⟩
    rintro ⟨h1, h2, h3, h4⟩
    rcases h with h | h | h | h
    · exact absurd h3 (not_le.mpr h)
    · exact absurd h4 (not_le.mpr h)
    · exact absurd h2 (not_le.mpr h)
    · exact absurd h1 (not_le.mpr h)
  · rename_i h
    refine ⟨fun _ => rfl, ?_, rfl, rfl, rfl⟩
    rintro (h1 | h1 | h1 | h1)
    · exact absurd (Or.inr (Or.inr (Or.inr h1))) h
    · exact absurd (Or.inr (Or.inr (Or.inl h1))) h
    · exact absurd (Or.inl h1) h
    · exact absurd (Or.inr (Or.inl h1)) h

/-- Witness of C3: on a solved state with `EPS = 1/10` and all strengths 0, a
reset to strengths within `1/10` keeps `is_solved = true`, and a reset that
moves `lambda_u` to 1 clears it. -/
theorem reset_is_solved_and_frame_witness :
    (reset (Example.mk1 3 1 1 (1 / 10) 5 true) (1 / 20) 0 0 0).st.is_solved = true ∧
    (reset (Example.mk1 3 1 1 (1 / 10) 5 true) 1 0 0 0).st.is_solved = false ∧
    (reset (Example.mk1 3 1 1 (1 / 10) 5 true) 1 0 0 0).st.u =
      (Example.mk1 3 1 1 (1 / 10) 5 true).u :=
  ⟨(reset_is_solved_and_frame (Example.mk1 3 1 1 (1 / 10) 5 true) (1 / 20) 0 0 0).1
      (by norm_num [Example.mk1, abs_of_nonneg]),
   (reset_is_solved_and_frame (Example.mk1 3 1 1 (1 / 10) 5 true) 1 0 0 0).2.1
      (Or.inl (by norm_num [Example.mk1])),
   (reset_is_solved_and_frame (Example.mk1 3 1 1 (1 / 10) 5 true) 1 0 0 0).2.2.2.1⟩

/-! ### `deflate` and `set_X` -/

/-- What `deflate` does when `d > 0`. -/
theorem deflate_of_pos [FloorRing K] (E : Externals K P n p) (d : K) (m : MoMA K P n p)
    (hd : 0 < d) :
    deflate E d m =
      ⟨[⟨Level.debug, "Deflating:\n"⟩],
        (initialize_uv E { m with X := m.X - Matrix.vecMulVec (d • m.u) m.v }).st,
        Except.ok (Int.floor d)⟩ := by
  have hn : ¬ d ≤ 0 := not_le.mpr hd
  simp only [deflate, if_neg hn, double_to_int, if_pos hd.le, initialize_uv, List.append_nil]

/-- The call `deflate` does not touch `is_solved`. -/
theorem deflate_is_solved [FloorRing K] (E : Externals K P n p) (d : K) (m : MoMA K P n p) :
    (deflate E d m).st.is_solved = m.is_solved := by
  unfold deflate
  simp only []
  split <;> rfl

/-- C4 fails on the code: on the solved state `X = (3)`, `u = v = (1)`, both
`deflate 3` and `set_X (7)` succeed, replace `X` and `(u, v)`, and leave
`is_solved = true`. -/
theorem is_solved_survives_mutation :
    (Example.mk1 3 1 1 (1 / 10) 5 true).is_solved = true ∧
    (deflate Example.E1 3 (Example.mk1 3 1 1 (1 / 10) 5 true)).ret = Except.ok 3 ∧
    (deflate Example.E1 3 (Example.mk1 3 1 1 (1 / 10) 5 true)).st.X = 0 ∧
    (deflate Example.E1 3 (Example.mk1 3 1 1 (1 / 10) 5 true)).st.is_solved = true ∧
    (set_X Example.E1 (fun _ _ => 7) (Example.mk1 3 1 1 (1 / 10) 5 true)).ret = Except.ok 0 ∧
    (set_X Example.E1 (fun _ _ => 7) (Example.mk1 3 1 1 (1 / 10) 5 true)).st.X = (fun _ _ => 7) ∧
    (set_X Example.E1 (fun _ _ => 7) (Example.mk1 3 1 1 (1 / 10) 5 true)).st.is_solved = true := by
  have h3 : Int.floor (3 : ℚ) = 3 := Int.floor_intCast (3 : Int)
  refine ⟨rfl, ?_, ?_, ?_, rfl, rfl, rfl⟩
  · rw [deflate_of_pos _ _ _ (by norm_num), h3]
  · rw [deflate_of_pos _ _ _ (by norm_num)]
    ext i j
    simp [initialize_uv, Example.mk1, Matrix.vecMulVec]
  · rw [deflate_is_solved]
    rfl

/-- C5 fails on the code: `deflate` returns its argument through the return type
`int`, so `deflate 2.5` returns 2 and `deflate 0.3` returns 0. -/
theorem deflate_returns_truncated :
    (deflate Example.E1 (5 / 2) (Example.mk1 3 1 1 (1 / 10) 5 true)).ret = Except.ok 2 ∧
    (deflate Example.E1 (3 / 10) (Example.mk1 3 1 1 (1 / 10) 5 true)).ret = Except.ok 0 := by
  have h1 : Int.floor ((5 : ℚ) / 2) = 2 := by
    rw [Int.floor_eq_iff]
    norm_num
  have h2 : Int.floor ((3 : ℚ) / 10) = 0 := by
    rw [Int.floor_eq_iff]
    norm_num
  constructor
  · rw [deflate_of_pos _ _ _ (by norm_num), h1]
  · rw [deflate_of_pos _ _ _ (by norm_num), h2]

/-- C6: for `d > 0`, after `deflate d` the matrix is `X - d * u * v^T` with the
`u`, `v` held before the call, the new `(u, v)` are the leading singular vectors
the SVD returns for that deflated matrix, and `lambda_u`, `lambda_v`, `alpha_u`,
`alpha_v`, `Omega_u`, `Omega_v`, `EPS` and `MAX_ITER` are unchanged. -/
theorem deflate_effect [FloorRing K] (E : Externals K P n p) (d : K) (m : MoMA K P n p)
    (hd : 0 < d) :
    (deflate E d m).st.X = m.X - d • Matrix.vecMulVec m.u m.v ∧
    (deflate E d m).st.u = (E.svd (m.X - d • Matrix.vecMulVec m.u m.v)).1 ∧
    (deflate E d m).st.v = (E.svd (m.X - d • Matrix.vecMulVec m.u m.v)).2 ∧
    (deflate E d m).st.lambda_u = m.lambda_u ∧ (deflate E d m).st.lambda_v = m.lambda_v ∧
    (deflate E d m).st.alpha_u = m.alpha_u ∧ (deflate E d m).st.alpha_v = m.alpha_v ∧
    (deflate E d m).st.Omega_u = m.Omega_u ∧ (deflate E d m).st.Omega_v = m.Omega_v ∧
    (deflate E d m).st.EPS = m.EPS ∧ (deflate E d m).st.MAX_ITER = m.MAX_ITER := by
  have e : Matrix.vecMulVec (d • m.u) m.v = d • Matrix.vecMulVec m.u m.v := by
    ext i j
    simp [Matrix.vecMulVec, mul_assoc]
  rw [deflate_of_pos E d m hd, e]
  exact ⟨rfl, rfl, rfl, rfl, rfl, rfl, rfl, rfl, rfl, rfl, rfl⟩

/-- Witness of C6: deflating `X = (3)`, `u = (1)`, `v = (1)` by 2 leaves
`X = 3 - 2 * 1 * 1`. -/
theorem deflate_effect_witness :
    (0 : ℚ) < 2 ∧
    (deflate Example.E1 2 (Example.mk1 3 1 1 (1 / 10) 5 true)).st.X =
      (Example.mk1 3 1 1 (1 / 10) 5 true).X -
        (2 : ℚ) • Matrix.vecMulVec (Example.mk1 3 1 1 (1 / 10) 5 true).u
          (Example.mk1 3 1 1 (1 / 10) 5 true).v :=
  ⟨by norm_num,
   (deflate_effect Example.E1 2 (Example.mk1 3 1 1 (1 / 10) 5 true) (by norm_num)).1⟩

/-! ### `solve` -/

theorem check_convergence_st (m : MoMA K P n p) (iter : Int) (tol : K) :
    (check_convergence m iter tol).st = m := by
  unfold check_convergence
  split <;> rfl

/-- The object state `solve` ends in: the one the loop was left with, with
`is_solved` set. -/
theorem solve_st (E : Externals K P n p) (m : MoMA K P n p) :
    (solve E m).st = { (solve_exit E m).st with is_solved := true } := by
  simp only [solve, check_convergence_st]

/-- One pass of the source loop is one pass of the specification's loop. -/
theorem solve_body_eq_pass (E : Externals K P n p) (s : LoopState K P n p) :
    (⟨(solve_body E s).st.u, (solve_body E s).st.v, (solve_body E s).tol,
        (solve_body E s).iter⟩ : Spec.Iterate K n p) =
      Spec.pass E.norm_n E.norm_p s.st.X (E.solve_u s.st.solver_u) (E.solve_v s.st.solver_v)
        ⟨s.st.u, s.st.v, s.tol, s.iter⟩ := by
  simp only [solve_body, Spec.pass, ite_not]

/-- Entered with its condition true, the source loop computes what the
specification's repeat-until loop computes from the same variables. -/
theorem solve_loop_eq_repeat_until (E : Externals K P n p) (s : LoopState K P n p)
    (h : s.tol > s.st.EPS ∧ s.iter < s.st.MAX_ITER) :
    (⟨(solve_loop E s).st.u, (solve_loop E s).st.v, (solve_loop E s).tol,
        (solve_loop E s).iter⟩ : Spec.Iterate K n p) =
      Spec.repeat_until E.norm_n E.norm_p s.st.X (E.solve_u s.st.solver_u)
        (E.solve_v s.st.solver_v) s.st.EPS s.st.MAX_ITER ⟨s.st.u, s.st.v, s.tol, s.iter⟩ := by
  induction s using solve_loop.induct E with
  | case1 x hx ih =>
    rw [solve_loop_step E x hx, Spec.repeat_until, ← solve_body_eq_pass]
    by_cases hc : (solve_body E x).tol > (solve_body E x).st.EPS ∧
        (solve_body E x).iter < (solve_body E x).st.MAX_ITER
    · have hn : ¬ ((solve_body E x).tol ≤ x.st.EPS ∨ (solve_body E x).iter ≥ x.st.MAX_ITER) := by
        rintro (c | c)
        · exact absurd hc.1 (not_lt.mpr c)
        · exact absurd hc.2 (not_lt.mpr c)
      rw [if_neg hn]
      exact ih hc
    · have hp : (solve_body E x).tol ≤ x.st.EPS ∨ (solve_body E x).iter ≥ x.st.MAX_ITER := by
        by_cases c : (solve_body E x).tol ≤ x.st.EPS
        · exact Or.inl c
        · right
          by_contra c2
          exact hc ⟨not_le.mp c, not_le.mp c2⟩
      rw [if_pos hp, solve_loop_stop E _ hc]
  | case2 x hx =>
    exact absurd h hx

/-- C7 as stated fails. With `MAX_ITER = 0` (and `EPS = 1/2`), and with
`EPS = 1` (and `MAX_ITER = 5`), the source loop makes no pass (`iter = 0`)
while the specification's repeat-until loop makes one (`iter = 1`). -/
theorem solve_vs_repeat_until_counterexample :
    ((solve_exit Example.Efix (Example.mk1 3 1 1 (1 / 2) 0 false)).iter = 0 ∧
      (Spec.solve Example.Efix.norm_n Example.Efix.norm_p (Example.mk1 3 1 1 (1 / 2) 0 false).X
        (Example.Efix.solve_u (Example.mk1 3 1 1 (1 / 2) 0 false).solver_u)
        (Example.Efix.solve_v (Example.mk1 3 1 1 (1 / 2) 0 false).solver_v)
        (Example.mk1 3 1 1 (1 / 2) 0 false).EPS (Example.mk1 3 1 1 (1 / 2) 0 false).MAX_ITER
        (Example.mk1 3 1 1 (1 / 2) 0 false).u (Example.mk1 3 1 1 (1 / 2) 0 false).v).iter = 1) ∧
    ((solve_exit Example.Efix (Example.mk1 3 1 1 1 5 false)).iter = 0 ∧
      (Spec.solve Example.Efix.norm_n Example.Efix.norm_p (Example.mk1 3 1 1 1 5 false).X
        (Example.Efix.solve_u (Example.mk1 3 1 1 1 5 false).solver_u)
        (Example.Efix.solve_v (Example.mk1 3 1 1 1 5 false).solver_v)
        (Example.mk1 3 1 1 1 5 false).EPS (Example.mk1 3 1 1 1 5 false).MAX_ITER
        (Example.mk1 3 1 1 1 5 false).u (Example.mk1 3 1 1 1 5 false).v).iter = 1) := by
  refine ⟨⟨?_, ?_⟩, ?_, ?_⟩
  · rw [solve_exit, solve_loop_stop _ _ (by simp [Example.mk1])]
  · rw [Spec.solve, Spec.repeat_until, if_pos (Or.inr (by simp [Spec.pass, Example.mk1]))]
    rfl
  · rw [solve_exit, solve_loop_stop _ _ (by simp [Example.mk1])]
  · rw [Spec.solve, Spec.repeat_until,
      if_pos (Or.inl (by simp [Spec.pass, Example.Efix, Example.mk1]))]
    rfl

/-- C7 (amended): when `EPS < 1` and `MAX_ITER >= 1`, `solve()` computes exactly
what the specification's repeat-until loop computes from the same `X`, `(u, v)`,
per-side updates, `EPS` and `MAX_ITER`: the final `u`, `v`, iteration count and
`tol` of the code equal those of the reference loop. -/
theorem solve_refines_repeat_until (E : Externals K P n p) (m : MoMA K P n p)
    (hE : m.EPS < 1) (hM : 1 ≤ m.MAX_ITER) :
    (solve E m).st.u =
      (Spec.solve E.norm_n E.norm_p m.X (E.solve_u m.solver_u) (E.solve_v m.solver_v)
        m.EPS m.MAX_ITER m.u m.v).u ∧
    (solve E m).st.v =
      (Spec.solve E.norm_n E.norm_p m.X (E.solve_u m.solver_u) (E.solve_v m.solver_v)
        m.EPS m.MAX_ITER m.u m.v).v ∧
    (solve_exit E m).iter =
      (Spec.solve E.norm_n E.norm_p m.X (E.solve_u m.solver_u) (E.solve_v m.solver_v)
        m.EPS m.MAX_ITER m.u m.v).iter ∧
    (solve_exit E m).tol =
      (Spec.solve E.norm_n E.norm_p m.X (E.solve_u m.solver_u) (E.solve_v m.solver_v)
        m.EPS m.MAX_ITER m.u m.v).tol := by
  have h := solve_loop_eq_repeat_until E ⟨m, 1, 0, []⟩ ⟨hE, lt_of_lt_of_le Int.zero_lt_one hM⟩
  have hu := congrArg Spec.Iterate.u h
  have hv := congrArg Spec.Iterate.v h
  have hi := congrArg Spec.Iterate.iter h
  have ht := congrArg Spec.Iterate.tol h
  rw [solve_st]
  exact ⟨hu, hv, hi, ht⟩

/-- Witness of C7: the state `X = (3)`, `u = v = (1)` with `EPS = 1/2` and
`MAX_ITER = 5`. -/
theorem solve_refines_repeat_until_witness :
    (solve_exit Example.E1 (Example.mk1 3 1 1 (1 / 2) 5 false)).iter =
      (Spec.solve Example.E1.norm_n Example.E1.norm_p (Example.mk1 3 1 1 (1 / 2) 5 false).X
        (Example.E1.solve_u (Example.mk1 3 1 1 (1 / 2) 5 false).solver_u)
        (Example.E1.solve_v (Example.mk1 3 1 1 (1 / 2) 5 false).solver_v)
        (Example.mk1 3 1 1 (1 / 2) 5 false).EPS (Example.mk1 3 1 1 (1 / 2) 5 false).MAX_ITER
        (Example.mk1 3 1 1 (1 / 2) 5 false).u (Example.mk1 3 1 1 (1 / 2) 5 false).v).iter :=
  (solve_refines_repeat_until Example.E1 (Example.mk1 3 1 1 (1 / 2) 5 false)
    (by norm_num [Example.mk1]) (by simp [Example.mk1])).2.2.1

/-- C8: `solve()` ends with `is_solved = true` whether or not the tolerance was
met, and `X`, `lambda_u`, `lambda_v`, `alpha_u`, `alpha_v`, `Omega_u`, `Omega_v`,
`EPS`, `MAX_ITER` and `is_initialized` after `solve()` equal their values before
it (so do the two per-side solvers): only `u`, `v` and `is_solved` change. -/
theorem solve_sets_is_solved_and_frame (E : Externals K P n p) (m : MoMA K P n p) :
    (solve E m).ret = Except.ok () ∧
    (solve E m).st.is_solved = true ∧
    (solve E m).st.X = m.X ∧
    (solve E m).st.lambda_u = m.lambda_u ∧ (solve E m).st.lambda_v = m.lambda_v ∧
    (solve E m).st.alpha_u = m.alpha_u ∧ (solve E m).st.alpha_v = m.alpha_v ∧
    (solve E m).st.Omega_u = m.Omega_u ∧ (solve E m).st.Omega_v = m.Omega_v ∧
    (solve E m).st.EPS = m.EPS ∧ (solve E m).st.MAX_ITER = m.MAX_ITER ∧
    (solve E m).st.is_initialzied = m.is_initialzied ∧
    (solve E m).st.solver_u = m.solver_u ∧ (solve E m).st.solver_v = m.solver_v := by
  have h := solve_loop_frame E ⟨m, 1, 0, []⟩
  obtain ⟨h1, h2, h3, h4, h5, h6, h7, h8, h9, h10, h11, h12, _⟩ := h
  rw [solve_st]
  exact ⟨rfl, rfl, h5, h3, h4, h1, h2, h6, h7, h9, h8, h12, h10, h11⟩

/-- C9 as stated fails: with per-side updates that return the warm start,
`EPS = 1/2` and `MAX_ITER = 1`, the single pass ends with `tol = 0 <= EPS` on
iteration number `MAX_ITER`, and the warning is emitted all the same. -/
theorem warning_on_converged_run_counterexample :
    (solve_exit Example.Efix (Example.mk1 3 1 1 (1 / 2) 1 false)).iter = 1 ∧
    (solve_exit Example.Efix (Example.mk1 3 1 1 (1 / 2) 1 false)).tol = 0 ∧
    (solve_exit Example.Efix (Example.mk1 3 1 1 (1 / 2) 1 false)).tol ≤
      (Example.mk1 3 1 1 (1 / 2) 1 false).EPS ∧
    no_convergence_warning ∈ (solve Example.Efix (Example.mk1 3 1 1 (1 / 2) 1 false)).log := by
  have e : solve_exit Example.Efix (Example.mk1 3 1 1 (1 / 2) 1 false) =
      solve_body Example.Efix ⟨Example.mk1 3 1 1 (1 / 2) 1 false, 1, 0, []⟩ := by
    rw [solve_exit, solve_loop_step _ _ (by norm_num [Example.mk1]),
      solve_loop_stop _ _ (by simp [solve_body, Example.mk1])]
  have hi : (solve_exit Example.Efix (Example.mk1 3 1 1 (1 / 2) 1 false)).iter = 1 := by
    rw [e]
    rfl
  have ht : (solve_exit Example.Efix (Example.mk1 3 1 1 (1 / 2) 1 false)).tol = 0 := by
    rw [e]
    simp [solve_body, Example.Efix, Example.mk1]
  refine ⟨hi, ht, ?_, ?_⟩
  · rw [ht]
    norm_num [Example.mk1]
  · rw [solve_warning_iff_test, hi]
    exact Or.inl (le_refl _)

/-- C9 (amended): `check_convergence` emits the warning if and only if the loop
was left with the iteration cap reached (`iter >= MAX_ITER`), which is also when
its test `iter >= MAX_ITER || tol > EPS` holds; so every run left with
`tol > EPS` is warned about, and a run that meets the tolerance before the cap
emits no warning. -/
theorem warning_iff_cap_reached (E : Externals K P n p) (m : MoMA K P n p) :
    (no_convergence_warning ∈ (solve E m).log ↔ (solve_exit E m).iter ≥ m.MAX_ITER) ∧
    (no_convergence_warning ∈ (solve E m).log ↔
      ((solve_exit E m).iter ≥ m.MAX_ITER ∨ (solve_exit E m).tol > m.EPS)) :=
  ⟨solve_warning_iff_cap E m, solve_warning_iff_test E m⟩

/-! ### Construction -/

/-- C10 as stated fails: with `EPS = 1` the constructor raises the error after
both per-side solvers have been constructed, not before. -/
theorem ctor_error_after_solvers_counterexample :
    (ctor Example.E1 (fun _ _ => 3) 0 0 () () 0 0 0 0 1 5 (1 / 100) 10 "ISTA").ret =
      Except.error "EPS or EPS_inner too large." ∧
    (ctor Example.E1 (fun _ _ => 3) 0 0 () () 0 0 0 0 1 5 (1 / 100) 10 "ISTA").steps =
      [CtorStep.construct_solver_u, CtorStep.construct_solver_v, CtorStep.raise_error] ∧
    ¬ (∀ step ∈ (ctor Example.E1 (fun _ _ => 3) 0 0 () () 0 0 0 0 1 5 (1 / 100) 10 "ISTA").steps,
        step ≠ CtorStep.construct_solver_u ∧ step ≠ CtorStep.construct_solver_v ∧
        step ≠ CtorStep.initialize_uv) := by
  have e : (ctor Example.E1 (fun _ _ => 3) 0 0 () () 0 0 0 0 1 5 (1 / 100) 10 "ISTA") =
      ⟨[CtorStep.construct_solver_u, CtorStep.construct_solver_v, CtorStep.raise_error],
        [⟨Level.error, "EPS or EPS_inner too large."⟩],
        Except.error "EPS or EPS_inner too large."⟩ := by
    rw [ctor, if_pos (Or.inl (le_refl _))]
    rfl
  rw [e]
  refine ⟨rfl, rfl, ?_⟩
  intro h
  exact (h CtorStep.construct_solver_u (by simp)).1 rfl

/-- C10 (amended): construction fails with the error "EPS or EPS_inner too
large." whenever `EPS >= 1` or `EPS_inner >= 1`; the error is raised after the
two per-side solvers have been constructed (member initialiser list) and before
`initialize_uv` runs, so `u`, `v` are never initialised; when both tolerances
are `< 1` this error is not raised and the object is returned initialised and
not solved. -/
theorem ctor_tolerance_check (E : Externals K P n p) (i_X : Mat K n p) (i_lambda_u i_lambda_v : K)
    (i_prox_arg_list_u i_prox_arg_list_v : P) (i_alpha_u i_alpha_v : K)
    (i_Omega_u : Mat K n n) (i_Omega_v : Mat K p p) (i_EPS : K) (i_MAX_ITER : Int)
    (i_EPS_inner : K) (i_MAX_ITER_inner : Int) (i_solver : String) :
    ((i_EPS ≥ 1 ∨ i_EPS_inner ≥ 1) →
      (ctor E i_X i_lambda_u i_lambda_v i_prox_arg_list_u i_prox_arg_list_v i_alpha_u i_alpha_v
          i_Omega_u i_Omega_v i_EPS i_MAX_ITER i_EPS_inner i_MAX_ITER_inner i_solver).ret =
        Except.error "EPS or EPS_inner too large." ∧
      (ctor E i_X i_lambda_u i_lambda_v i_prox_arg_list_u i_prox_arg_list_v i_alpha_u i_alpha_v
          i_Omega_u i_Omega_v i_EPS i_MAX_ITER i_EPS_inner i_MAX_ITER_inner i_solver).steps =
        [CtorStep.construct_solver_u, CtorStep.construct_solver_v, CtorStep.raise_error]) ∧
    ((i_EPS < 1 ∧ i_EPS_inner < 1) →
      (∃ m : MoMA K P n p,
        (ctor E i_X i_lambda_u i_lambda_v i_prox_arg_list_u i_prox_arg_list_v i_alpha_u i_alpha_v
          i_Omega_u i_Omega_v i_EPS i_MAX_ITER i_EPS_inner i_MAX_ITER_inner i_solver).ret =
          Except.ok m ∧
        m.is_initialzied = true ∧ m.is_solved = false ∧
        m.u = (E.svd i_X).1 ∧ m.v = (E.svd i_X).2) ∧
      (ctor E i_X i_lambda_u i_lambda_v i_prox_arg_list_u i_prox_arg_list_v i_alpha_u i_alpha_v
          i_Omega_u i_Omega_v i_EPS i_MAX_ITER i_EPS_inner i_MAX_ITER_inner i_solver).steps =
        [CtorStep.construct_solver_u, CtorStep.construct_solver_v, CtorStep.initialize_uv]) := by
  constructor
  · intro h
    rw [ctor, if_pos h]
    exact ⟨rfl, rfl⟩
  · rintro ⟨h1, h2⟩
    have hn : ¬ (i_EPS ≥ 1 ∨ i_EPS_inner ≥ 1) := by
      rintro (c | c)
      · exact absurd h1 (not_lt.mpr c)
      · exact absurd h2 (not_lt.mpr c)
    rw [ctor, if_neg hn]
    exact ⟨⟨_, rfl, rfl, rfl, rfl, rfl⟩, rfl⟩

/-- Witness of C10: construction with `EPS_inner = 1` fails after the solvers
are constructed; construction with `EPS = 1/10`, `EPS_inner = 1/100` succeeds. -/
theorem ctor_tolerance_check_witness :
    (ctor Example.E1 (fun _ _ => 3) 0 0 () () 0 0 0 0 (1 / 10) 5 1 10 "ISTA").steps =
      [CtorStep.construct_solver_u, CtorStep.construct_solver_v, CtorStep.raise_error] ∧
    (ctor Example.E1 (fun _ _ => 3) 0 0 () () 0 0 0 0 (1 / 10) 5 (1 / 100) 10 "ISTA").steps =
      [CtorStep.construct_solver_u, CtorStep.construct_solver_v, CtorStep.initialize_uv] :=
  ⟨((ctor_tolerance_check Example.E1 (fun _ _ => 3) 0 0 () () 0 0 0 0 (1 / 10) 5 1 10 "ISTA").1
      (Or.inr (le_refl _))).2,
   ((ctor_tolerance_check Example.E1 (fun _ _ => 3) 0 0 () () 0 0 0 0 (1 / 10) 5 (1 / 100) 10
      "ISTA").2 ⟨by norm_num, by norm_num⟩).2⟩

/-! ### `evaluate_loss` -/

/-- The scalar `alpha * u.t() * Omega * u` of the source is `alpha * (uᵗ Omega u)`. -/
theorem ellipse_term (a : K) {k : Nat} (w : Vec K k) (Omega : Mat K k k) :
    Matrix.dotProduct (Matrix.vecMul (a • w) Omega) w =
      a * Matrix.dotProduct w (Matrix.mulVec Omega w) := by
  rw [Matrix.vecMul_smul, Matrix.smul_dotProduct, Matrix.dotProduct_mulVec, smul_eq_mul]

/-- C12: `evaluate_loss` is guarded by the solved flag. With `is_solved = false`
it raises an error instead of returning; with `is_solved = true` it raises the
ellipse error exactly when `uᵗu + alpha_u * uᵗ Omega_u u` or
`vᵗv + alpha_v * vᵗ Omega_v v` is neither 0 nor 1, and otherwise returns the
constant 1; in every case the object state is unchanged. -/
theorem evaluate_loss_guarded (m : MoMA K P n p) :
    (m.is_solved = false →
      (evaluate_loss m).ret =
        Except.error "Please call MoMA::solve first before MoMA::evaluate_loss.") ∧
    (m.is_solved = true →
      ((evaluate_loss m).ret = Except.error "Ellipse constraint is not met." ↔
        ((Matrix.dotProduct m.u m.u +
              m.alpha_u * Matrix.dotProduct m.u (Matrix.mulVec m.Omega_u m.u) ≠ 0 ∧
            Matrix.dotProduct m.u m.u +
              m.alpha_u * Matrix.dotProduct m.u (Matrix.mulVec m.Omega_u m.u) ≠ 1) ∨
          (Matrix.dotProduct m.v m.v +
              m.alpha_v * Matrix.dotProduct m.v (Matrix.mulVec m.Omega_v m.v) ≠ 0 ∧
            Matrix.dotProduct m.v m.v +
              m.alpha_v * Matrix.dotProduct m.v (Matrix.mulVec m.Omega_v m.v) ≠ 1))) ∧
      ((evaluate_loss m).ret = Except.ok 1 ↔
        ¬ ((Matrix.dotProduct m.u m.u +
              m.alpha_u * Matrix.dotProduct m.u (Matrix.mulVec m.Omega_u m.u) ≠ 0 ∧
            Matrix.dotProduct m.u m.u +
              m.alpha_u * Matrix.dotProduct m.u (Matrix.mulVec m.Omega_u m.u) ≠ 1) ∨
          (Matrix.dotProduct m.v m.v +
              m.alpha_v * Matrix.dotProduct m.v (Matrix.mulVec m.Omega_v m.v) ≠ 0 ∧
            Matrix.dotProduct m.v m.v +
              m.alpha_v * Matrix.dotProduct m.v (Matrix.mulVec m.Omega_v m.v) ≠ 1)))) ∧
    (evaluate_loss m).st = m := by
  refine ⟨?_, ?_, ?_⟩
  · intro h
    simp [evaluate_loss, h, MoMALogger.error]
  · intro h
    simp only [evaluate_loss, h, ellipse_term]
    constructor
    · constructor
      · intro hr
        by_contra hc
        simp [hc] at hr
      · intro hc
        simp [hc, MoMALogger.error]
    · constructor
      · intro hr hc
        simp [hc, MoMALogger.error] at hr
      · intro hc
        simp [hc]
  · unfold evaluate_loss
    simp only []
    split
    · rfl
    · split <;> rfl

/-- Witness of C12: on `u = v = (1)` with zero smoothness weights both ellipse
values are 1, so a solved state returns 1 and an unsolved one is refused. -/
theorem evaluate_loss_guarded_witness :
    (evaluate_loss (Example.mk1 3 1 1 (1 / 10) 5 false)).ret =
      Except.error "Please call MoMA::solve first before MoMA::evaluate_loss." ∧
    (evaluate_loss (Example.mk1 3 1 1 (1 / 10) 5 true)).ret = Except.ok 1 :=
  ⟨(evaluate_loss_guarded (Example.mk1 3 1 1 (1 / 10) 5 false)).1 rfl,
   (((evaluate_loss_guarded (Example.mk1 3 1 1 (1 / 10) 5 true)).2.1 rfl).2).mpr
     (by simp [Example.mk1, Matrix.dotProduct])⟩

/-! ### `reset` and the per-side solvers -/

/-- What `reset` does when no difference exceeds `EPS`: only the solvers change. -/
theorem reset_of_within (m : MoMA K P n p) (nlu nlv nau nav : K)
    (h : ¬ (|m.alpha_u - nau| > m.EPS ∨ |m.alpha_v - nav| > m.EPS ∨
      |m.lambda_v - nlv| > m.EPS ∨ |m.lambda_u - nlu| > m.EPS)) :
    (reset m nlu nlv nau nav).st =
      { m with solver_u := m.solver_u.reset nlu nau, solver_v := m.solver_v.reset nlv nav } := by
  simp only [reset, if_neg h]

/-- C14 fails on the code: on a state with `EPS = 1/10` whose engine and solver
strengths are all 0, `reset(1/20, 0, 0, 0)` stores `lambda = 1/20` in `solver_u`
and leaves the engine's `lambda_u` at 0, so the two no longer agree. -/
theorem reset_leaves_engine_copy_stale :
    ((Example.mk1 3 1 1 (1 / 10) 5 true).lambda_u =
        (Example.mk1 3 1 1 (1 / 10) 5 true).solver_u.lambda ∧
      (Example.mk1 3 1 1 (1 / 10) 5 true).alpha_u =
        (Example.mk1 3 1 1 (1 / 10) 5 true).solver_u.alpha ∧
      (Example.mk1 3 1 1 (1 / 10) 5 true).lambda_v =
        (Example.mk1 3 1 1 (1 / 10) 5 true).solver_v.lambda ∧
      (Example.mk1 3 1 1 (1 / 10) 5 true).alpha_v =
        (Example.mk1 3 1 1 (1 / 10) 5 true).solver_v.alpha) ∧
    (reset (Example.mk1 3 1 1 (1 / 10) 5 true) (1 / 20) 0 0 0).st.solver_u.lambda = 1 / 20 ∧
    (reset (Example.mk1 3 1 1 (1 / 10) 5 true) (1 / 20) 0 0 0).st.lambda_u = 0 ∧
    (reset (Example.mk1 3 1 1 (1 / 10) 5 true) (1 / 20) 0 0 0).st.lambda_u ≠
      (reset (Example.mk1 3 1 1 (1 / 10) 5 true) (1 / 20) 0 0 0).st.solver_u.lambda := by
  have h : ¬ (|(Example.mk1 3 1 1 (1 / 10) 5 true).alpha_u - 0| >
        (Example.mk1 3 1 1 (1 / 10) 5 true).EPS ∨
      |(Example.mk1 3 1 1 (1 / 10) 5 true).alpha_v - 0| >
        (Example.mk1 3 1 1 (1 / 10) 5 true).EPS ∨
      |(Example.mk1 3 1 1 (1 / 10) 5 true).lambda_v - 0| >
        (Example.mk1 3 1 1 (1 / 10) 5 true).EPS ∨
      |(Example.mk1 3 1 1 (1 / 10) 5 true).lambda_u - 1 / 20| >
        (Example.mk1 3 1 1 (1 / 10) 5 true).EPS) := by
    norm_num [Example.mk1, abs_of_nonneg]
  rw [reset_of_within _ _ _ _ _ h]
  refine ⟨⟨rfl, rfl, rfl, rfl⟩, rfl, rfl, ?_⟩
  norm_num [Example.mk1, PR_solver.reset]

/-! ### Number of passes of the loop and of solver invocations -/

/-- The loop is the body applied as many times as the counter advanced. -/
theorem solve_loop_iterate (E : Externals K P n p) (s : LoopState K P n p) :
    solve_loop E s = (solve_body E)^[((solve_loop E s).iter - s.iter).toNat] s := by
  induction s using solve_loop.induct E with
  | case1 x h ih =>
    rw [solve_loop_step E x h]
    have hb := (solve_loop_iter_bounds E (solve_body E x)).1
    have e1 : (solve_body E x).iter = x.iter + 1 := rfl
    rw [e1] at hb ih
    have e : ((solve_loop E (solve_body E x)).iter - x.iter).toNat =
        ((solve_loop E (solve_body E x)).iter - (x.iter + 1)).toNat + 1 := by
      omega
    rw [e, Function.iterate_succ_apply]
    exact ih
  | case2 x h =>
    rw [solve_loop_stop E x h]
    simp

/-- C17: with `MAX_ITER <= 0` (and any `EPS`, in particular any `EPS < 1`)
`solve()` makes no pass, so it calls no per-side solver and leaves `u` and `v`
exactly as they were; it still emits the non-convergence warning and sets
`is_solved = true`. -/
theorem solve_degenerate_cap (E : Externals K P n p) (m : MoMA K P n p)
    (hM : m.MAX_ITER ≤ 0) :
    solve_exit E m = ⟨m, 1, 0, []⟩ ∧
    (solve E m).st = { m with is_solved := true } ∧
    (solve E m).st.u = m.u ∧ (solve E m).st.v = m.v ∧
    (solve E m).st.is_solved = true ∧
    (solve E m).log = [⟨Level.info, "Finish PG loop. Total iter = "⟩, no_convergence_warning] ∧
    no_convergence_warning ∈ (solve E m).log := by
  have hn : ¬ ((1 : K) > m.EPS ∧ (0 : Int) < m.MAX_ITER) := fun c => absurd c.2 (not_lt.mpr hM)
  have e : solve_exit E m = ⟨m, 1, 0, []⟩ := solve_loop_stop E ⟨m, 1, 0, []⟩ hn
  have hc : (0 : Int) ≥ m.MAX_ITER ∨ (1 : K) > m.EPS := Or.inl hM
  have hl : (solve E m).log =
      [⟨Level.info, "Finish PG loop. Total iter = "⟩, no_convergence_warning] := by
    simp only [solve, e, check_convergence, if_pos hc, List.nil_append, List.singleton_append]
  refine ⟨e, ?_, ?_, ?_, ?_, hl, ?_⟩
  · rw [solve_st, e]
  · rw [solve_st, e]
  · rw [solve_st, e]
  · rw [solve_st]
  · rw [hl]
    simp

/-- Witness of C17: the state `X = (3)`, `u = v = (1)` with `MAX_ITER = 0`. -/
theorem solve_degenerate_cap_witness :
    (solve Example.E1 (Example.mk1 3 1 1 (1 / 2) 0 false)).st.u =
      (Example.mk1 3 1 1 (1 / 2) 0 false).u ∧
    no_convergence_warning ∈ (solve Example.E1 (Example.mk1 3 1 1 (1 / 2) 0 false)).log :=
  ⟨(solve_degenerate_cap Example.E1 (Example.mk1 3 1 1 (1 / 2) 0 false)
      (by simp [Example.mk1])).2.2.1,
   (solve_degenerate_cap Example.E1 (Example.mk1 3 1 1 (1 / 2) 0 false)
      (by simp [Example.mk1])).2.2.2.2.2.2⟩

/-! ### The discrepancy `tol` -/

/-- The 1×1 collaborators `Eunit` satisfy the norm laws. -/
theorem Eunit_norm_laws : Example.Eunit.NormLaws where
  norm_n_nonneg := fun x => abs_nonneg (x 0)
  norm_n_eq_zero := fun x => by
    constructor
    · intro h
      funext i
      rw [Subsingleton.elim i 0]
      exact abs_eq_zero.mp h
    · intro h
      rw [h]
      simp [Example.Eunit]
  norm_n_smul := fun c x => by simp [Example.Eunit, abs_mul]
  norm_p_nonneg := fun x => abs_nonneg (x 0)
  norm_p_eq_zero := fun x => by
    constructor
    · intro h
      funext i
      rw [Subsingleton.elim i 0]
      exact abs_eq_zero.mp h
    · intro h
      rw [h]
      simp [Example.Eunit]
  norm_p_smul := fun c x => by simp [Example.Eunit, abs_mul]

/-- The 1×1 collaborators `Eunit` are the unpenalized solver. -/
theorem Eunit_unpenalized : Example.Eunit.Unpenalized :=
  ⟨fun _ _ _ _ _ => rfl, fun _ _ _ _ _ => rfl⟩

/-- The loop is left in its entry state or in the state a pass produced. -/
theorem solve_loop_last (E : Externals K P n p) (s : LoopState K P n p) :
    solve_loop E s = s ∨ ∃ q, solve_loop E s = solve_body E q := by
  induction s using solve_loop.induct E with
  | case1 x h ih =>
    rw [solve_loop_step E x h]
    rcases ih with ih | ⟨q, hq⟩
    · exact Or.inr ⟨x, ih⟩
    · exact Or.inr ⟨q, hq⟩
  | case2 x h =>
    exact Or.inl (solve_loop_stop E x h)

/-- A nonnegative norm replaced by 1 when it is zero is strictly positive. -/
theorem scale_pos (a : K) (h : 0 ≤ a) : 0 < (if a = 0 then 1 else a) := by
  split
  · exact zero_lt_one
  · rename_i hne
    exact lt_of_le_of_ne h (Ne.symm hne)

/-- The discrepancy of one pass: nonnegative, and zero exactly when the pass
changed neither factor. -/
theorem solve_body_tol (E : Externals K P n p) (hN : E.NormLaws) (s : LoopState K P n p) :
    0 ≤ (solve_body E s).tol ∧
    ((solve_body E s).tol = 0 ↔
      (solve_body E s).st.u = s.st.u ∧ (solve_body E s).st.v = s.st.v) := by
  have hsu := scale_pos (E.norm_n s.st.u) (hN.norm_n_nonneg _)
  have hsv := scale_pos (E.norm_p s.st.v) (hN.norm_p_nonneg _)
  have ha := hN.norm_n_nonneg (s.st.u - (solve_body E s).st.u)
  have hb := hN.norm_p_nonneg (s.st.v - (solve_body E s).st.v)
  have hta := div_nonneg ha hsu.le
  have htb := div_nonneg hb hsv.le
  have ht : (solve_body E s).tol =
      E.norm_n (s.st.u - (solve_body E s).st.u) / (if E.norm_n s.st.u = 0 then 1
        else E.norm_n s.st.u) +
      E.norm_p (s.st.v - (solve_body E s).st.v) / (if E.norm_p s.st.v = 0 then 1
        else E.norm_p s.st.v) := rfl
  rw [ht]
  refine ⟨add_nonneg hta htb, ?_⟩
  constructor
  · intro h0
    have h1 := (add_eq_zero_iff_of_nonneg hta htb).mp h0
    have h1a : E.norm_n (s.st.u - (solve_body E s).st.u) = 0 := by
      rcases div_eq_zero_iff.mp h1.1 with h | h
      · exact h
      · exact absurd h hsu.ne'
    have h1b : E.norm_p (s.st.v - (solve_body E s).st.v) = 0 := by
      rcases div_eq_zero_iff.mp h1.2 with h | h
      · exact h
      · exact absurd h hsv.ne'
    exact ⟨(sub_eq_zero.mp ((hN.norm_n_eq_zero _).mp h1a)).symm,
      (sub_eq_zero.mp ((hN.norm_p_eq_zero _).mp h1b)).symm⟩
  · rintro ⟨h1, h2⟩
    have z1 : E.norm_n (s.st.u - (solve_body E s).st.u) = 0 :=
      (hN.norm_n_eq_zero _).mpr (sub_eq_zero.mpr h1.symm)
    have z2 : E.norm_p (s.st.v - (solve_body E s).st.v) = 0 :=
      (hN.norm_p_eq_zero _).mpr (sub_eq_zero.mpr h2.symm)
    rw [z1, z2, zero_div, zero_div, add_zero]

/-- A pass that changes neither factor is repeated unchanged by the next pass. -/
theorem solve_body_fixed (E : Externals K P n p) (q : LoopState K P n p)
    (hu : (solve_body E q).st.u = q.st.u) (hv : (solve_body E q).st.v = q.st.v) :
    (solve_body E (solve_body E q)).st.u = (solve_body E q).st.u ∧
    (solve_body E (solve_body E q)).st.v = (solve_body E q).st.v := by
  have e : (solve_body E q).st = q.st := by
    have h1 : (solve_body E q).st =
        { q.st with u := (solve_body E q).st.u, v := (solve_body E q).st.v } := rfl
    rw [h1, hu, hv]
  have k1 : (solve_body E (solve_body E q)).st.u = (solve_body E q).st.u := by
    have h2 : (solve_body E (solve_body E q)).st.u =
        E.solve_u (solve_body E q).st.solver_u
          (Matrix.mulVec (solve_body E q).st.X (solve_body E q).st.v) (solve_body E q).st.u := rfl
    rw [h2, e]
    exact hu
  have k2 : (solve_body E (solve_body E q)).st.v = (solve_body E q).st.v := by
    have h3 : (solve_body E (solve_body E q)).st.v =
        E.solve_v (solve_body E q).st.solver_v
          (Matrix.mulVec (Matrix.transpose (solve_body E q).st.X)
            (solve_body E (solve_body E q)).st.u) (solve_body E q).st.v := rfl
    have h4 : (solve_body E q).st.v =
        E.solve_v q.st.solver_v
          (Matrix.mulVec (Matrix.transpose q.st.X) (solve_body E q).st.u) q.st.v := rfl
    rw [hu] at h4
    rw [h3, k1, e]
    rw [h4] at hv
    exact hv
  exact ⟨k1, k2⟩

/-- C16: the discrepancy of a pass is well defined and faithful. The divisors
`scale_u`, `scale_v` are strictly positive (1 replaces a zero norm),
`tol = ||u - u'|| / scale_u + ||v - v'|| / scale_v` is `>= 0`, and `tol = 0` if
and only if `u' = u` and `v' = v`; hence with `EPS = 0` a loop left before the
cap is left with `tol = 0` at an exact fixed point of the alternating step. -/
theorem discrepancy_well_defined (E : Externals K P n p) (hN : E.NormLaws) :
    (∀ s : LoopState K P n p,
      0 < (if E.norm_n s.st.u = 0 then 1 else E.norm_n s.st.u) ∧
      0 < (if E.norm_p s.st.v = 0 then 1 else E.norm_p s.st.v) ∧
      (solve_body E s).tol =
        E.norm_n (s.st.u - (solve_body E s).st.u) /
            (if E.norm_n s.st.u = 0 then 1 else E.norm_n s.st.u) +
          E.norm_p (s.st.v - (solve_body E s).st.v) /
            (if E.norm_p s.st.v = 0 then 1 else E.norm_p s.st.v) ∧
      0 ≤ (solve_body E s).tol ∧
      ((solve_body E s).tol = 0 ↔
        (solve_body E s).st.u = s.st.u ∧ (solve_body E s).st.v = s.st.v)) ∧
    (∀ m : MoMA K P n p, m.EPS = 0 → (solve_exit E m).iter < m.MAX_ITER →
      (solve_exit E m).tol = 0 ∧
      (solve_body E (solve_exit E m)).st.u = (solve_exit E m).st.u ∧
      (solve_body E (solve_exit E m)).st.v = (solve_exit E m).st.v) := by
  constructor
  · intro s
    exact ⟨scale_pos _ (hN.norm_n_nonneg _), scale_pos _ (hN.norm_p_nonneg _), rfl,
      solve_body_tol E hN s⟩
  · intro m hE hlt
    have hx := solve_loop_exit E ⟨m, 1, 0, []⟩
    have hle : (solve_exit E m).tol ≤ 0 := by
      by_contra hc
      exact hx ⟨by rw [hE]; exact not_le.mp hc, hlt⟩
    rcases solve_loop_last E ⟨m, 1, 0, []⟩ with h | ⟨q, hq⟩
    · have h1 : (solve_exit E m).tol = 1 := by
        rw [solve_exit, h]
      rw [h1] at hle
      exact absurd hle (not_le.mpr zero_lt_one)
    · have hq2 : solve_exit E m = solve_body E q := hq
      rw [hq2] at hle ⊢
      have ht := solve_body_tol E hN q
      have h0 : (solve_body E q).tol = 0 := le_antisymm hle ht.1
      have hf := ht.2.mp h0
      exact ⟨h0, solve_body_fixed E q hf.1 hf.2⟩

/-- Witness of C16: with the unpenalized solver on `X = (3)`, `u = v = (1)`,
`EPS = 0` and `MAX_ITER = 5`, the loop is left after one pass, before the cap,
with `tol = 0`. -/
theorem discrepancy_well_defined_witness :
    (solve_exit Example.Eunit (Example.mk1 3 1 1 0 5 false)).iter = 1 ∧
    (solve_exit Example.Eunit (Example.mk1 3 1 1 0 5 false)).tol = 0 := by
  have e : solve_exit Example.Eunit (Example.mk1 3 1 1 0 5 false) =
      solve_body Example.Eunit ⟨Example.mk1 3 1 1 0 5 false, 1, 0, []⟩ := by
    rw [solve_exit, solve_loop_step _ _ (by norm_num [Example.mk1]),
      solve_loop_stop _ _ (by
        simp [solve_body, Example.mk1, Example.Eunit, Matrix.mulVec, Matrix.dotProduct])]
  have hi : (solve_exit Example.Eunit (Example.mk1 3 1 1 0 5 false)).iter = 1 := by
    rw [e]
    rfl
  exact ⟨hi, ((discrepancy_well_defined Example.Eunit Eunit_norm_laws).2
    (Example.mk1 3 1 1 0 5 false) rfl (by rw [hi]; simp [Example.mk1])).1⟩

/-! ### Starting at a singular pair -/

/-- One pass of the loop from a singular pair with the unpenalized solver
returns the pair and discrepancy 0. -/
theorem solve_body_singular_pair (E : Externals K P n p) (hN : E.NormLaws)
    (hS : E.Unpenalized) (q : LoopState K P n p) (σ : K) (hσ : 0 < σ)
    (hu : E.norm_n q.st.u = 1) (hv : E.norm_p q.st.v = 1)
    (hXv : Matrix.mulVec q.st.X q.st.v = σ • q.st.u)
    (hXu : Matrix.mulVec (Matrix.transpose q.st.X) q.st.u = σ • q.st.v)
    (hlu : q.st.solver_u.lambda = 0) (hau : q.st.solver_u.alpha = 0)
    (hlv : q.st.solver_v.lambda = 0) (hav : q.st.solver_v.alpha = 0) :
    (solve_body E q).st.u = q.st.u ∧ (solve_body E q).st.v = q.st.v ∧
    (solve_body E q).tol = 0 := by
  have k1 : (solve_body E q).st.u = q.st.u := by
    have h1 : (solve_body E q).st.u =
        E.solve_u q.st.solver_u (Matrix.mulVec q.st.X q.st.v) q.st.u := rfl
    rw [h1, hS.1 _ _ _ hlu hau, hXv, hN.norm_n_smul, hu, mul_one, abs_of_pos hσ, smul_smul,
      inv_mul_cancel₀ hσ.ne', one_smul]
  have k2 : (solve_body E q).st.v = q.st.v := by
    have h2 : (solve_body E q).st.v =
        E.solve_v q.st.solver_v
          (Matrix.mulVec (Matrix.transpose q.st.X) (solve_body E q).st.u) q.st.v := rfl
    rw [h2, k1, hS.2 _ _ _ hlv hav, hXu, hN.norm_p_smul, hv, mul_one, abs_of_pos hσ, smul_smul,
      inv_mul_cancel₀ hσ.ne', one_smul]
  exact ⟨k1, k2, ((solve_body_tol E hN q).2).mpr ⟨k1, k2⟩⟩

/-- C11: starting `solve()` at a leading singular pair is an exact fixed point.
For unit vectors `(u0, v0)` with `X v0 = s u0` and `Xᵗ u0 = s v0` for some
`s > 0`, zero strengths and the unpenalized per-side solver (the target
rescaled to unit norm), `MAX_ITER >= 1` and `0 <= EPS < 1`, `solve()` makes
exactly 1 pass, the final discrepancy is `0 <= EPS`, and the resulting `(u, v)`
is `(u0, v0)`. -/
theorem solve_at_singular_pair (E : Externals K P n p) (hN : E.NormLaws)
    (hS : E.Unpenalized) (m : MoMA K P n p) (σ : K) (hσ : 0 < σ)
    (hu : E.norm_n m.u = 1) (hv : E.norm_p m.v = 1)
    (hXv : Matrix.mulVec m.X m.v = σ • m.u)
    (hXu : Matrix.mulVec (Matrix.transpose m.X) m.u = σ • m.v)
    (hlu : m.solver_u.lambda = 0) (hau : m.solver_u.alpha = 0)
    (hlv : m.solver_v.lambda = 0) (hav : m.solver_v.alpha = 0)
    (hM : 1 ≤ m.MAX_ITER) (hE0 : 0 ≤ m.EPS) (hE1 : m.EPS < 1) :
    (solve_exit E m).iter = 1 ∧ (solve_exit E m).tol = 0 ∧ (solve_exit E m).tol ≤ m.EPS ∧
    (solve E m).st.u = m.u ∧ (solve E m).st.v = m.v := by
  have hb := solve_body_singular_pair E hN hS ⟨m, 1, 0, []⟩ σ hσ hu hv hXv hXu hlu hau hlv hav
  have hc : (1 : K) > m.EPS ∧ (0 : Int) < m.MAX_ITER := ⟨hE1, lt_of_lt_of_le Int.zero_lt_one hM⟩
  have hn : ¬ ((solve_body E ⟨m, 1, 0, []⟩).tol > (solve_body E ⟨m, 1, 0, []⟩).st.EPS ∧
      (solve_body E ⟨m, 1, 0, []⟩).iter < (solve_body E ⟨m, 1, 0, []⟩).st.MAX_ITER) := by
    rintro ⟨c, _⟩
    rw [hb.2.2] at c
    exact absurd c (not_lt.mpr hE0)
  have e : solve_exit E m = solve_body E ⟨m, 1, 0, []⟩ := by
    rw [solve_exit, solve_loop_step E _ hc, solve_loop_stop E _ hn]
  rw [solve_st, e]
  refine ⟨rfl, hb.2.2, ?_, hb.1, hb.2.1⟩
  rw [hb.2.2]
  exact hE0

/-- Witness of C11: `X = (3)`, `u0 = v0 = (1)`, `s = 3`, `EPS = 1/10`,
`MAX_ITER = 5`, with the unpenalized 1×1 solver. -/
theorem solve_at_singular_pair_witness :
    (solve_exit Example.Eunit (Example.mk1 3 1 1 (1 / 10) 5 false)).iter = 1 ∧
    (solve_exit Example.Eunit (Example.mk1 3 1 1 (1 / 10) 5 false)).tol = 0 ∧
    (solve Example.Eunit (Example.mk1 3 1 1 (1 / 10) 5 false)).st.u =
      (Example.mk1 3 1 1 (1 / 10) 5 false).u :=
  have h := solve_at_singular_pair Example.Eunit Eunit_norm_laws Eunit_unpenalized
    (Example.mk1 3 1 1 (1 / 10) 5 false) 3 (by norm_num)
    (by simp [Example.Eunit, Example.mk1]) (by simp [Example.Eunit, Example.mk1])
    (by ext i; simp [Example.mk1, Matrix.mulVec, Matrix.dotProduct])
    (by ext i; simp [Example.mk1, Matrix.mulVec, Matrix.dotProduct])
    rfl rfl rfl rfl (by simp [Example.mk1]) (by norm_num [Example.mk1])
    (by norm_num [Example.mk1])
  ⟨h.1, h.2.1, h.2.2.2.1⟩

/-! ### Deflation and singular values -/

/-- The outer product `u vᵗ` applied to `y` is `(v ⬝ᵥ y) u`. -/
theorem vecMulVec_mulVec_eq (u : Vec K n) (v y : Vec K p) :
    Matrix.mulVec (Matrix.vecMulVec u v) y = Matrix.dotProduct v y • u := by
  ext i
  simp only [Matrix.mulVec, Matrix.vecMulVec_apply, Matrix.dotProduct, Pi.smul_apply,
    smul_eq_mul, Finset.sum_mul]
  exact Finset.sum_congr rfl (fun j _ => by ring)

theorem le_of_sq_le_sq_of_nonneg {a b : K} (hb : 0 ≤ b) (h : a ^ 2 ≤ b ^ 2) : a ≤ b := by
  by_contra hc
  have : b < a := not_le.mp hc
  nlinarith

theorem dot_self_nonneg {k : Nat} (y : Vec K k) : 0 ≤ Matrix.dotProduct y y := by
  unfold Matrix.dotProduct
  exact Finset.sum_nonneg (fun i _ => mul_self_nonneg (y i))

theorem dot_self_pos {k : Nat} (y : Vec K k) (h : y ≠ 0) : 0 < Matrix.dotProduct y y := by
  rcases (dot_self_nonneg y).lt_or_eq with h1 | h1
  · exact h1
  · exact absurd (Matrix.dotProduct_self_eq_zero.mp h1.symm) h

/-- Removing the leading singular component `σ u vᵗ` from `X` leaves a matrix
whose leading singular value is at most the second singular value of `X`. -/
theorem rank_one_deflation_bound (X : Mat K n p) (u : Vec K n) (v : Vec K p) (σ σ2 τ : K)
    (hu : Matrix.dotProduct u u = 1) (hv : Matrix.dotProduct v v = 1)
    (hXv : Matrix.mulVec X v = σ • u)
    (hXu : Matrix.mulVec (Matrix.transpose X) u = σ • v)
    (hσ : IsLeadingSingularValue X σ) (h2 : IsSecondSingularValue X σ2)
    (hτ : IsLeadingSingularValue (X - σ • Matrix.vecMulVec u v) τ) : τ ≤ σ2 := by
  obtain ⟨hσ0, hσle, -⟩ := hσ
  obtain ⟨h20, ⟨w, hw⟩, -⟩ := h2
  obtain ⟨hτ0, -, ⟨y0, hy0, hy0eq⟩⟩ := hτ
  apply le_of_sq_le_sq_of_nonneg h20
  set c : K := Matrix.dotProduct v y0 with hc
  set y1 : Vec K p := y0 - c • v with hy1
  have hN0 := dot_self_pos y0 hy0
  have hvy1 : Matrix.dotProduct v y1 = 0 := by
    rw [hy1, Matrix.dotProduct_sub, Matrix.dotProduct_smul, hv, smul_eq_mul, mul_one, sub_self]
  have hy1v : Matrix.dotProduct y1 v = 0 := by rw [Matrix.dotProduct_comm, hvy1]
  have hN1 : Matrix.dotProduct y1 y1 = Matrix.dotProduct y0 y0 - c ^ 2 := by
    have e1 : Matrix.dotProduct y0 v = c := by rw [Matrix.dotProduct_comm]
    rw [hy1, Matrix.sub_dotProduct, Matrix.dotProduct_sub, Matrix.dotProduct_sub,
      Matrix.smul_dotProduct, Matrix.smul_dotProduct, Matrix.dotProduct_smul,
      Matrix.dotProduct_smul, hv, e1, ← hc]
    simp only [smul_eq_mul]
    ring
  have hXy : Matrix.mulVec (X - σ • Matrix.vecMulVec u v) y0 = Matrix.mulVec X y1 := by
    rw [Matrix.sub_mulVec, Matrix.smul_mulVec_assoc, vecMulVec_mulVec_eq, hy1, Matrix.mulVec_sub,
      Matrix.mulVec_smul, hXv, ← hc, smul_smul, smul_smul, mul_comm]
  rw [hXy] at hy0eq
  have huz : Matrix.dotProduct u (Matrix.mulVec X y1) = 0 := by
    rw [Matrix.dotProduct_mulVec, ← Matrix.mulVec_transpose, hXu, Matrix.smul_dotProduct, hvy1,
      smul_zero]
  have hzu : Matrix.dotProduct (Matrix.mulVec X y1) u = 0 := by
    rw [Matrix.dotProduct_comm, huz]
  have hτσ : τ ^ 2 ≤ σ ^ 2 := by
    have h1 := hσle y1
    rw [hy0eq, hN1] at h1
    have : τ ^ 2 * Matrix.dotProduct y0 y0 ≤ σ ^ 2 * Matrix.dotProduct y0 y0 := by
      nlinarith [sq_nonneg c, sq_nonneg σ]
    exact le_of_mul_le_mul_right this hN0
  by_cases hvw : Matrix.dotProduct v w = 0
  · have h1 := hw v hvw
    rw [hXv, Matrix.smul_dotProduct, Matrix.dotProduct_smul, hu, hv] at h1
    simp only [smul_eq_mul, mul_one] at h1
    nlinarith
  · set a : K := Matrix.dotProduct y1 w with ha
    set b : K := -Matrix.dotProduct v w with hb
    have hb0 : b ≠ 0 := by
      rw [hb]
      exact neg_ne_zero.mpr hvw
    have hyw : Matrix.dotProduct (a • v + b • y1) w = 0 := by
      rw [Matrix.add_dotProduct, Matrix.smul_dotProduct, Matrix.smul_dotProduct, ← ha]
      simp only [smul_eq_mul]
      rw [hb]
      ring
    have h1 := hw (a • v + b • y1) hyw
    have eX : Matrix.dotProduct (Matrix.mulVec X (a • v + b • y1))
        (Matrix.mulVec X (a • v + b • y1)) =
        a ^ 2 * σ ^ 2 + b ^ 2 * (τ ^ 2 * Matrix.dotProduct y0 y0) := by
      rw [Matrix.mulVec_add, Matrix.mulVec_smul, Matrix.mulVec_smul, hXv]
      simp only [Matrix.add_dotProduct, Matrix.dotProduct_add, Matrix.smul_dotProduct,
        Matrix.dotProduct_smul, hu, huz, hzu, hy0eq, smul_eq_mul]
      ring
    have eN : Matrix.dotProduct (a • v + b • y1) (a • v + b • y1) =
        a ^ 2 + b ^ 2 * (Matrix.dotProduct y0 y0 - c ^ 2) := by
      simp only [Matrix.add_dotProduct, Matrix.dotProduct_add, Matrix.smul_dotProduct,
        Matrix.dotProduct_smul, hv, hvy1, hy1v, hN1, smul_eq_mul]
      ring
    rw [eX, eN] at h1
    have hpos : 0 < a ^ 2 + b ^ 2 * Matrix.dotProduct y0 y0 := by
      have hb2 : 0 < b ^ 2 := by positivity
      exact add_pos_of_nonneg_of_pos (sq_nonneg a) (mul_pos hb2 hN0)
    have key : τ ^ 2 * (a ^ 2 + b ^ 2 * Matrix.dotProduct y0 y0) ≤
        σ2 ^ 2 * (a ^ 2 + b ^ 2 * Matrix.dotProduct y0 y0) := by
      have P1 : 0 ≤ a ^ 2 * (σ ^ 2 - τ ^ 2) := mul_nonneg (sq_nonneg a) (sub_nonneg.mpr hτσ)
      have P2 : 0 ≤ σ2 ^ 2 * (b ^ 2 * c ^ 2) :=
        mul_nonneg (sq_nonneg σ2) (mul_nonneg (sq_nonneg b) (sq_nonneg c))
      linarith
    exact le_of_mul_le_mul_right key hpos


/-- A matrix has at most one leading singular value. -/
theorem leading_singular_value_unique (A : Mat K n p) (σ τ : K)
    (h1 : IsLeadingSingularValue A σ) (h2 : IsLeadingSingularValue A τ) : σ = τ := by
  obtain ⟨hσ0, hσle, y, hy, hye⟩ := h1
  obtain ⟨hτ0, hτle, z, hz, hze⟩ := h2
  apply le_antisymm
  · apply le_of_sq_le_sq_of_nonneg hτ0
    have h := hτle y
    rw [hye] at h
    exact le_of_mul_le_mul_right h (dot_self_pos y hy)
  · apply le_of_sq_le_sq_of_nonneg hσ0
    have h := hσle z
    rw [hze] at h
    exact le_of_mul_le_mul_right h (dot_self_pos z hz)

/-- A matrix has at most one second singular value. -/
theorem second_singular_value_unique (A : Mat K n p) (σ τ : K)
    (h1 : IsSecondSingularValue A σ) (h2 : IsSecondSingularValue A τ) : σ = τ := by
  obtain ⟨hσ0, ⟨w, hw⟩, hσlow⟩ := h1
  obtain ⟨hτ0, ⟨w2, hw2⟩, hτlow⟩ := h2
  apply le_antisymm
  · apply le_of_sq_le_sq_of_nonneg hτ0
    obtain ⟨y, hy, hyw, hyl⟩ := hσlow w2
    exact le_of_mul_le_mul_right (le_trans hyl (hw2 y hyw)) (dot_self_pos y hy)
  · apply le_of_sq_le_sq_of_nonneg hσ0
    obtain ⟨y, hy, hyw, hyl⟩ := hτlow w
    exact le_of_mul_le_mul_right (le_trans hyl (hw y hyw)) (dot_self_pos y hy)

/-- The matrix `deflate` leaves when `d > 0`. -/
theorem deflate_X [FloorRing K] (E : Externals K P n p) (d : K) (m : MoMA K P n p)
    (hd : 0 < d) :
    (deflate E d m).st.X = m.X - d • Matrix.vecMulVec m.u m.v := by
  have e : Matrix.vecMulVec (d • m.u) m.v = d • Matrix.vecMulVec m.u m.v := by
    ext i j
    simp [Matrix.vecMulVec, mul_assoc]
  rw [deflate_of_pos E d m hd, ← e]
  rfl

theorem dot2 (a b : Vec ℚ 2) : Matrix.dotProduct a b = a 0 * b 0 + a 1 * b 1 := by
  simp [Matrix.dotProduct, Fin.sum_univ_two]

theorem diag_mulVec2 (x y : ℚ) (z : Vec ℚ 2) :
    Matrix.mulVec (Matrix.diagonal ![x, y]) z = ![x * z 0, y * z 1] := by
  ext i
  fin_cases i <;> simp [Matrix.mulVec_diagonal]

theorem vec2_ne_zero (z : Vec ℚ 2) (h : z 0 ≠ 0 ∨ z 1 ≠ 0) : z ≠ 0 := by
  intro hz
  rcases h with h | h
  · exact h (by rw [hz]; rfl)
  · exact h (by rw [hz]; rfl)

/-- The second singular value of `diag(2, 1)` is 1. -/
theorem diag21_second : IsSecondSingularValue (Matrix.diagonal ![(2 : ℚ), 1]) 1 := by
  refine ⟨zero_le_one, ⟨![1, 0], ?_⟩, ?_⟩
  · intro y hy
    rw [dot2] at hy
    simp at hy
    rw [diag_mulVec2, dot2, dot2]
    simp [hy]
  · intro w
    by_cases hw : w 0 = 0 ∧ w 1 = 0
    · refine ⟨![1, 0], vec2_ne_zero _ (Or.inl (by simp)), ?_, ?_⟩
      · rw [dot2]
        simp [hw.1]
      · rw [diag_mulVec2, dot2, dot2]
        norm_num
    · refine ⟨![-(w 1), w 0], vec2_ne_zero _ ?_, ?_, ?_⟩
      · by_contra hc
        push_neg at hc
        simp at hc
        exact hw ⟨hc.2, hc.1⟩
      · rw [dot2]
        simp
        ring
      · rw [diag_mulVec2, dot2, dot2]
        simp
        nlinarith [sq_nonneg (w 1)]


/-- The leading singular value of `diag(2, 1)` is 2. -/
theorem diag21_leading : IsLeadingSingularValue (Matrix.diagonal ![(2 : ℚ), 1]) 2 := by
  refine ⟨by norm_num, ?_, ⟨![1, 0], vec2_ne_zero _ (Or.inl (by simp)), ?_⟩⟩
  · intro y
    rw [diag_mulVec2, dot2, dot2]
    simp
    nlinarith [sq_nonneg (y 1)]
  · rw [diag_mulVec2, dot2, dot2]
    norm_num

/-- The matrix `diag(x, y) - d u vᵗ` applied to a vector of length 2. -/
theorem deflated_mulVec2 (x y d : ℚ) (u v z : Vec ℚ 2) :
    Matrix.mulVec (Matrix.diagonal ![x, y] - d • Matrix.vecMulVec u v) z =
      ![x * z 0 - d * ((v 0 * z 0 + v 1 * z 1) * u 0),
        y * z 1 - d * ((v 0 * z 0 + v 1 * z 1) * u 1)] := by
  rw [Matrix.sub_mulVec, Matrix.smul_mulVec_assoc, vecMulVec_mulVec_eq, diag_mulVec2, dot2]
  ext i
  fin_cases i <;> simp

/-- C13 as stated fails: on `X = diag(2, 1)` with the unit pair `u = v = (0, 1)`
and `d = uᵗ X v = 1`, `deflate` leaves `diag(2, 0)`, whose leading singular value
2 exceeds the second singular value 1 of the original `X`. -/
theorem deflate_singular_value_counterexample :
    Matrix.dotProduct (Example.mk2 2 1 ![0, 1] ![0, 1]).u (Example.mk2 2 1 ![0, 1] ![0, 1]).u = 1 ∧
    Matrix.dotProduct (Example.mk2 2 1 ![0, 1] ![0, 1]).v (Example.mk2 2 1 ![0, 1] ![0, 1]).v = 1 ∧
    (1 : ℚ) = Matrix.dotProduct (Example.mk2 2 1 ![0, 1] ![0, 1]).u
      (Matrix.mulVec (Example.mk2 2 1 ![0, 1] ![0, 1]).X (Example.mk2 2 1 ![0, 1] ![0, 1]).v) ∧
    IsSecondSingularValue (Example.mk2 2 1 ![0, 1] ![0, 1]).X 1 ∧
    IsLeadingSingularValue (deflate Example.E2 1 (Example.mk2 2 1 ![0, 1] ![0, 1])).st.X 2 ∧
    ¬ ((2 : ℚ) ≤ 1) := by
  refine ⟨?_, ?_, ?_, diag21_second, ?_, by norm_num⟩
  · rw [dot2]
    simp [Example.mk2]
  · rw [dot2]
    simp [Example.mk2]
  · have e : (Example.mk2 2 1 ![0, 1] ![0, 1]).X = Matrix.diagonal ![(2 : ℚ), 1] := rfl
    rw [e, diag_mulVec2, dot2]
    simp [Example.mk2]
  · rw [deflate_X _ _ _ (by norm_num)]
    have e : (Example.mk2 2 1 ![0, 1] ![0, 1]).X = Matrix.diagonal ![(2 : ℚ), 1] := rfl
    rw [e]
    refine ⟨by norm_num, ?_, ⟨![1, 0], vec2_ne_zero _ (Or.inl (by simp)), ?_⟩⟩
    · intro y
      rw [deflated_mulVec2, dot2, dot2]
      simp [Example.mk2]
      nlinarith [sq_nonneg (y 1)]
    · rw [deflated_mulVec2, dot2, dot2]
      simp [Example.mk2]
      norm_num

/-- C13 (amended): when the current pair `(u, v)` is a unit singular pair of
`X` for its leading singular value `s` (`X v = s u`, `Xᵗ u = s v`), `deflate(d)`
with `d = uᵗ X v > 0` produces a matrix `X - d u vᵗ` whose leading singular
value is less than or equal to the second singular value of the original `X`. -/
theorem deflate_leading_le_second [FloorRing K] (E : Externals K P n p) (m : MoMA K P n p)
    (σ σ2 τ d : K)
    (hu : Matrix.dotProduct m.u m.u = 1) (hv : Matrix.dotProduct m.v m.v = 1)
    (hXv : Matrix.mulVec m.X m.v = σ • m.u)
    (hXu : Matrix.mulVec (Matrix.transpose m.X) m.u = σ • m.v)
    (hσ : IsLeadingSingularValue m.X σ)
    (hd : d = Matrix.dotProduct m.u (Matrix.mulVec m.X m.v)) (hpos : 0 < d)
    (h2 : IsSecondSingularValue m.X σ2)
    (hτ : IsLeadingSingularValue (deflate E d m).st.X τ) : τ ≤ σ2 := by
  have hdσ : d = σ := by
    rw [hd, hXv, Matrix.dotProduct_smul, hu, smul_eq_mul, mul_one]
  rw [deflate_X E d m hpos, hdσ] at hτ
  exact rank_one_deflation_bound m.X m.u m.v σ σ2 τ hu hv hXv hXu hσ h2 hτ

/-- Witness of C13: on `X = diag(2, 1)` with the leading pair `u = v = (1, 0)`
and `d = 2`, the deflated matrix `diag(0, 1)` has leading singular value 1, the
second singular value of `X`. -/
theorem deflate_leading_le_second_witness :
    IsLeadingSingularValue (deflate Example.E2 2 (Example.mk2 2 1 ![1, 0] ![1, 0])).st.X 1 ∧
    IsSecondSingularValue (Example.mk2 2 1 ![1, 0] ![1, 0]).X 1 ∧
    (1 : ℚ) ≤ 1 := by
  have e : (Example.mk2 2 1 ![1, 0] ![1, 0]).X = Matrix.diagonal ![(2 : ℚ), 1] := rfl
  have hτ : IsLeadingSingularValue
      (deflate Example.E2 2 (Example.mk2 2 1 ![1, 0] ![1, 0])).st.X 1 := by
    rw [deflate_X _ _ _ (by norm_num), e]
    refine ⟨by norm_num, ?_, ⟨![0, 1], vec2_ne_zero _ (Or.inr (by simp)), ?_⟩⟩
    · intro y
      rw [deflated_mulVec2, dot2, dot2]
      simp [Example.mk2]
      nlinarith [sq_nonneg (y 0)]
    · rw [deflated_mulVec2, dot2, dot2]
      simp [Example.mk2]
  refine ⟨hτ, diag21_second, ?_⟩
  exact deflate_leading_le_second Example.E2 (Example.mk2 2 1 ![1, 0] ![1, 0]) 2 1 1 2
    (by rw [dot2]; simp [Example.mk2]) (by rw [dot2]; simp [Example.mk2])
    (by rw [e, diag_mulVec2]; ext i; fin_cases i <;> simp [Example.mk2])
    (by rw [e, Matrix.diagonal_transpose, diag_mulVec2]; ext i; fin_cases i <;> simp [Example.mk2])
    (by rw [e]; exact diag21_leading)
    (by rw [e, diag_mulVec2, dot2]; simp [Example.mk2])
    (by norm_num) diag21_second hτ


/-- Over the reals the Euclidean norm `‖x‖ = √(x ⬝ᵥ x)` satisfies the norm laws. -/
theorem euclidean_norm_laws (E : Externals ℝ P n p)
    (hn : ∀ x, E.norm_n x = Real.sqrt (Matrix.dotProduct x x))
    (hp : ∀ x, E.norm_p x = Real.sqrt (Matrix.dotProduct x x)) : E.NormLaws := by
  have hsm : ∀ (k : Nat) (c : ℝ) (x : Vec ℝ k),
      Real.sqrt (Matrix.dotProduct (c • x) (c • x)) = |c| * Real.sqrt (Matrix.dotProduct x x) := by
    intro k c x
    have e : Matrix.dotProduct (c • x) (c • x) = c ^ 2 * Matrix.dotProduct x x := by
      rw [Matrix.smul_dotProduct, Matrix.dotProduct_smul, smul_eq_mul, smul_eq_mul]
      ring
    rw [e, Real.sqrt_mul (sq_nonneg c), Real.sqrt_sq_eq_abs]
  have hz : ∀ (k : Nat) (x : Vec ℝ k), Real.sqrt (Matrix.dotProduct x x) = 0 ↔ x = 0 := by
    intro k x
    rw [Real.sqrt_eq_zero (dot_self_nonneg x)]
    exact Matrix.dotProduct_self_eq_zero
  exact
    { norm_n_nonneg := fun x => by rw [hn]; exact Real.sqrt_nonneg _
      norm_n_eq_zero := fun x => by rw [hn]; exact hz n x
      norm_n_smul := fun c x => by rw [hn, hn]; exact hsm n c x
      norm_p_nonneg := fun x => by rw [hp]; exact Real.sqrt_nonneg _
      norm_p_eq_zero := fun x => by rw [hp]; exact hz p x
      norm_p_smul := fun c x => by rw [hp, hp]; exact hsm p c x }

end MoMA
